import Mathlib

/-!
Verification of the produzione_main product-creation pipeline.

Shallow embedding of the Python sources:
* `config/placements.py` and `config/products.py` (static catalogs),
* `placement_config.py` (placement resolver of the modular path),
* `core/file_manager.py`, `core/api_client.py`, `core/product_builder.py`
  (the clean builder),
* `modules/product_creator/api_client.py`,
  `modules/product_creator/product_builder.py`,
  `modules/product_creator/batch_processor.py` (the modular path).

HTTP and the filesystem are modelled by oracles: an API oracle maps the
index of a vendor call to the response (or raised exception) it produces,
`fs` maps a path to `os.path.exists`, and uploader oracles map a local
path to the URL returned by the asset store (or an exception).
-/

namespace Produzione

/-! ## JSON-level model of vendor API responses

A Printful response body is a dict; the builders access the keys
`code`, `result`, `result.id`, `result.sync_product.id` and
`result.sync_variants`.  Missing keys are `none`; direct indexing of a
missing key raises a `KeyError`, `.get` returns a default. -/

/-- One element of a remote `sync_variants` list; the builders only read
its `id` key. -/
structure RemoteVariant where
  id? : Option Nat
  deriving DecidableEq, Repr

/-- The `result.sync_product` object of a response. -/
structure SyncProductObj where
  id? : Option Nat
  deriving DecidableEq, Repr

/-- The `result` object of a response. -/
structure ApiResult where
  id? : Option Nat
  syncProduct? : Option SyncProductObj
  syncVariants? : Option (List RemoteVariant)
  deriving DecidableEq, Repr

/-- A parsed JSON response body. -/
structure ApiResponse where
  code? : Option Nat
  result? : Option ApiResult
  deriving DecidableEq, Repr

/-- Embedding of `response.get("code") in [200, 201]` (a missing key is not in the list). -/
def isSuccessCode (c : Option Nat) : Bool :=
  c == some 200 || c == some 201

/-- Python truthiness of an optional string (`None` and `""` are falsy),
used by conditions such as `i == 1 and logo_url`. -/
def truthy : Option String → Bool
  | none => false
  | some s => s ≠ ""

/-! ## PositionBox and the placement catalogs -/

/-- A relative-coordinate position dict, as stored in
`config/placements.py` and `placement_config.py`. -/
structure PositionBox where
  area_width : ℚ
  area_height : ℚ
  width : ℚ
  height : ℚ
  top : ℚ
  left : ℚ
  limit_to_print_area : Bool
  deriving DecidableEq, Repr

/-- An entry of a `files` payload option list
(`id: "auto_thread_color", value: true`). -/
structure FileOption where
  id : String
  value : Bool
  deriving DecidableEq, Repr

/-- A `files[]` payload entry.  The position field is parametrised so the
same shape serves the value-level payloads (`π = PositionBox`) and the
store-level aliasing model (`π = Nat`, an address). -/
structure FileConfigP (π : Type) where
  type : String
  url : String
  options? : Option (List FileOption)
  position? : Option π
  deriving DecidableEq, Repr

/-- Value-level file config, as sent to the vendor. -/
abbrev FileConfig := FileConfigP PositionBox

namespace Placements
/- `config/placements.py` -/

/-- Embedding of `HAT_PLACEMENTS` of `config/placements.py`. -/
def HAT_PLACEMENTS : List (String × PositionBox) :=
  [("embroidery_front",
    { area_width := 12, area_height := 8, width := 5, height := 4,
      top := 2.5, left := 1.5, limit_to_print_area := true }),
   ("embroidery_left",
    { area_width := 8, area_height := 6, width := 3, height := 2.5,
      top := 1.5, left := 2.5, limit_to_print_area := true }),
   ("embroidery_right",
    { area_width := 8, area_height := 6, width := 3, height := 2.5,
      top := 1.5, left := 2.5, limit_to_print_area := true })]

/-- Embedding of `SLEEVE_PLACEMENTS` of `config/placements.py`. -/
def SLEEVE_PLACEMENTS : List (String × PositionBox) :=
  [("embroidery_sleeve_left_top",
    { area_width := 10, area_height := 15, width := 3, height := 3,
      top := 9.5, left := 3.5, limit_to_print_area := false }),
   ("embroidery_sleeve_right_top",
    { area_width := 10, area_height := 15, width := 3, height := 3,
      top := 9.5, left := 3.5, limit_to_print_area := false }),
   ("embroidery_wrist_left",
    { area_width := 8, area_height := 12, width := 2.4, height := 2.4,
      top := 7.6, left := 2.8, limit_to_print_area := false }),
   ("embroidery_wrist_right",
    { area_width := 8, area_height := 12, width := 2.4, height := 2.4,
      top := 7.6, left := 2.8, limit_to_print_area := false })]

/-- Embedding of `CHEST_PLACEMENTS` of `config/placements.py`. -/
def CHEST_PLACEMENTS : List (String × PositionBox) :=
  [("embroidery_chest_left",
    { area_width := 18, area_height := 24, width := 2, height := 2,
      top := 3, left := 4, limit_to_print_area := true }),
   ("embroidery_chest_right",
    { area_width := 18, area_height := 24, width := 4, height := 4,
      top := 3, left := 10, limit_to_print_area := true }),
   ("embroidery_chest_center",
    { area_width := 18, area_height := 24, width := 5, height := 5,
      top := 4, left := 6.5, limit_to_print_area := true })]

/-- Embedding of `ALL_PLACEMENTS = {**HAT_PLACEMENTS, **SLEEVE_PLACEMENTS, **CHEST_PLACEMENTS}`
(the key sets are disjoint, so dict merge is list concatenation). -/
def ALL_PLACEMENTS : List (String × PositionBox) :=
  HAT_PLACEMENTS ++ SLEEVE_PLACEMENTS ++ CHEST_PLACEMENTS

/-- Embedding of `get_placement_config`: `ALL_PLACEMENTS.get(placement_type)`. -/
def get_placement_config (placement_type : String) : Option PositionBox :=
  ALL_PLACEMENTS.lookup placement_type

/-- Embedding of `apply_position` at the level of values: attaches
`position.copy()` when the catalog has an entry for the type. -/
def apply_position (placement_type : String) (file_config : FileConfig) :
    FileConfig :=
  match get_placement_config placement_type with
  | none => file_config
  | some position => { file_config with position? := some position }

/-! Object-identity model of `apply_position`: position dicts live in a
store of cells, the catalog dicts occupy the prefix, and `position.copy()`
allocates a fresh cell.  A file config refers to its position dict by
address. -/

/-- The position of a key in an association list (the address of the
shared dict the lookup returns). -/
def lookupIdx : List (String × PositionBox) → String → Option Nat
  | [], _ => none
  | (k, _) :: rest, key =>
    if k = key then some 0 else (lookupIdx rest key).map (· + 1)

/-- A store of position dicts. -/
structure PosStore where
  cells : List PositionBox
  deriving Repr

/-- Dereference an address. -/
def read_cell (s : PosStore) (a : Nat) : Option PositionBox := s.cells[a]?

/-- Mutate the dict at an address in place. -/
def write_cell (s : PosStore) (a : Nat) (v : PositionBox) : PosStore :=
  ⟨s.cells.set a v⟩

/-- The store holding the shared `ALL_PLACEMENTS` dicts. -/
def init_store : PosStore := ⟨ALL_PLACEMENTS.map Prod.snd⟩

/-- The address of the shared catalog dict `ALL_PLACEMENTS[placement_type]`
inside `init_store`. -/
def catalog_addr (placement_type : String) : Option Nat :=
  lookupIdx ALL_PLACEMENTS placement_type

/-- Embedding of `apply_position` with object identity explicit: when the catalog has
an entry, `position.copy()` allocates a fresh cell holding the same value
and the config's `position` field is set to the fresh address; otherwise
the config is returned untouched. -/
def apply_position_store (s : PosStore) (placement_type : String)
    (file_config : FileConfigP Nat) : PosStore × FileConfigP Nat :=
  match get_placement_config placement_type with
  | none => (s, file_config)
  | some position =>
    (⟨s.cells ++ [position]⟩,
     { file_config with position? := some s.cells.length })

end Placements

namespace PlacementConfig
/- `placement_config.py` -/

/-- One entry of a product's `placements` list in `placement_config.py`. -/
structure Placement where
  type : String
  description : String
  design_type : String
  deriving DecidableEq, Repr

/-- Embedding of `UNIVERSAL_SLEEVE_OFFSET` of `placement_config.py`. -/
def UNIVERSAL_SLEEVE_OFFSET : List (String × PositionBox) :=
  [("embroidery_sleeve_left_top",
    { area_width := 10, area_height := 15, width := 3, height := 3,
      top := 9.5, left := 3.5, limit_to_print_area := false }),
   ("embroidery_sleeve_right_top",
    { area_width := 10, area_height := 15, width := 3, height := 3,
      top := 9.5, left := 3.5, limit_to_print_area := false }),
   ("embroidery_wrist_left",
    { area_width := 8, area_height := 12, width := 2.4, height := 2.4,
      top := 7.6, left := 2.8, limit_to_print_area := false }),
   ("embroidery_wrist_right",
    { area_width := 8, area_height := 12, width := 2.4, height := 2.4,
      top := 7.6, left := 2.8, limit_to_print_area := false })]

/-- Embedding of `UNIVERSAL_CHEST_OFFSET` of `placement_config.py`. -/
def UNIVERSAL_CHEST_OFFSET : List (String × PositionBox) :=
  [("embroidery_chest_left",
    { area_width := 18, area_height := 24, width := 2, height := 2,
      top := 3, left := 4, limit_to_print_area := true }),
   ("embroidery_chest_right",
    { area_width := 18, area_height := 24, width := 4, height := 4,
      top := 3, left := 10, limit_to_print_area := true }),
   ("embroidery_chest_center",
    { area_width := 18, area_height := 24, width := 5, height := 5,
      top := 4, left := 6.5, limit_to_print_area := true })]

/-- Embedding of `PRODUCT_PLACEMENTS` of `placement_config.py`: key ↦ (name, placements). -/
def PRODUCT_PLACEMENTS : List (String × String × List Placement) :=
  [("gildan_5000", "Gildan 5000 - T-shirt",
    [⟨"embroidery_chest_left", "Ricamo petto sinistro", "embroidery"⟩,
     ⟨"embroidery_sleeve_left_top", "Ricamo manica sinistra", "embroidery"⟩,
     ⟨"back", "Stampa DTG retro", "dtg"⟩]),
   ("gildan_18000", "Gildan 18000 - Felpa",
    [⟨"embroidery_chest_left", "Ricamo petto sinistro", "embroidery"⟩,
     ⟨"embroidery_wrist_left", "Ricamo polso sinistro", "embroidery"⟩,
     ⟨"back", "Stampa DTG retro", "dtg"⟩]),
   ("gildan_18500", "Gildan 18500 - Felpa con Cappuccio",
    [⟨"embroidery_chest_left", "Ricamo petto sinistro", "embroidery"⟩,
     ⟨"embroidery_wrist_left", "Ricamo polso sinistro", "embroidery"⟩,
     ⟨"back", "Stampa DTG retro", "dtg"⟩]),
   ("as_colour_1120", "AS Colour 1120 - T-shirt",
    [⟨"embroidery_chest_left", "Ricamo petto sinistro", "embroidery"⟩,
     ⟨"embroidery_sleeve_left_top", "Ricamo manica sinistra", "embroidery"⟩,
     ⟨"back", "Stampa DTG retro", "dtg"⟩]),
   ("yupoong_6089m", "Yupoong 6089M - Cappello",
    [⟨"embroidery_front", "Ricamo frontale", "embroidery"⟩,
     ⟨"embroidery_left", "Ricamo lato sinistro", "embroidery"⟩])]

/-- Embedding of `get_product_placements`: raises a `ValueError` for an unconfigured
product type. -/
def get_product_placements (product_type : String) :
    Except String (List Placement) :=
  match PRODUCT_PLACEMENTS.lookup product_type with
  | none => .error ("ValueError: Prodotto " ++ product_type ++ " non configurato")
  | some cfg => .ok cfg.2

/-- Embedding of `apply_universal_positioning`: overlays a copy of the sleeve or chest
offset dict when the placement type is configured, otherwise leaves the
config untouched. -/
def apply_universal_positioning (placement_type : String)
    (file_config : FileConfig) : FileConfig :=
  match UNIVERSAL_SLEEVE_OFFSET.lookup placement_type with
  | some position_config => { file_config with position? := some position_config }
  | none =>
    match UNIVERSAL_CHEST_OFFSET.lookup placement_type with
    | some position_config => { file_config with position? := some position_config }
    | none => file_config

/-- The per-slot loop body of `create_variant_files_config`: URL selection
by slot index (slot 0 → design, slot 1 → logo when truthy, a `back` slot →
upscaled when truthy, otherwise skip), thread-color options for embroidery
slots and the universal positioning overlay.  `i` is the running index. -/
def files_config_loop (design_url : String)
    (logo_url upscaled_url : Option String) :
    Nat → List Placement → List FileConfig
  | _, [] => []
  | i, placement :: rest =>
    let placement_type := placement.type
    let url? : Option String :=
      if i == 0 then some design_url
      else if i == 1 && truthy logo_url then logo_url
      else if placement_type == "back" && truthy upscaled_url then upscaled_url
      else none
    match url? with
    | none => files_config_loop design_url logo_url upscaled_url (i + 1) rest
    | some url =>
      let file_config : FileConfig :=
        { type := placement_type, url := url
          options? :=
            if placement.design_type == "embroidery" then
              some [⟨"auto_thread_color", true⟩]
            else none
          position? := none }
      let file_config := apply_universal_positioning placement_type file_config
      file_config :: files_config_loop design_url logo_url upscaled_url (i + 1) rest

/-- Embedding of `create_variant_files_config`: placement lookup then the per-slot loop. -/
def create_variant_files_config (product_type : String) (design_url : String)
    (logo_url upscaled_url : Option String) : Except String (List FileConfig) :=
  (get_product_placements product_type).map
    (files_config_loop design_url logo_url upscaled_url 0)

/-- Embedding of `validate_product_compatibility`: compatible exactly when
`get_product_placements` does not raise. -/
def validate_product_compatibility (product_type : String) : Bool :=
  (get_product_placements product_type).toOption.isSome

end PlacementConfig

namespace Products
/- `config/products.py` -/

/-- One entry of a product's `placements` list in `config/products.py`
(which also records an `order` rank). -/
structure Placement where
  type : String
  description : String
  design_type : String
  order : Nat
  deriving DecidableEq, Repr

/-- A `PRODUCTS` entry: human name, category and the placement list. -/
structure ProductCfg where
  name : String
  category : String
  placements : List Placement
  deriving DecidableEq, Repr

/-- Embedding of `PRODUCTS` of `config/products.py`. -/
def PRODUCTS : List (String × ProductCfg) :=
  [("gildan_5000",
    { name := "Gildan 5000 - T-shirt", category := "tshirt",
      placements :=
        [⟨"embroidery_chest_left", "Ricamo petto sinistro", "embroidery", 1⟩,
         ⟨"embroidery_sleeve_left_top", "Ricamo manica sinistra", "embroidery", 2⟩,
         ⟨"back", "Stampa DTG retro", "dtg", 3⟩] }),
   ("gildan_18000",
    { name := "Gildan 18000 - Felpa", category := "sweatshirt",
      placements :=
        [⟨"embroidery_chest_left", "Ricamo petto sinistro", "embroidery", 1⟩,
         ⟨"embroidery_wrist_left", "Ricamo polso sinistro", "embroidery", 2⟩,
         ⟨"back", "Stampa DTG retro", "dtg", 3⟩] }),
   ("gildan_18500",
    { name := "Gildan 18500 - Felpa con Cappuccio", category := "hoodie",
      placements :=
        [⟨"embroidery_chest_left", "Ricamo petto sinistro", "embroidery", 1⟩,
         ⟨"embroidery_wrist_left", "Ricamo polso sinistro", "embroidery", 2⟩,
         ⟨"back", "Stampa DTG retro", "dtg", 3⟩] }),
   ("as_colour_1120",
    { name := "AS Colour 1120 - Beanie", category := "hat",
      placements :=
        [⟨"embroidery_front", "Ricamo frontale", "embroidery", 1⟩] }),
   ("yupoong_6089m",
    { name := "Yupoong 6089M - Cappello", category := "hat",
      placements :=
        [⟨"embroidery_front", "Ricamo frontale", "embroidery", 1⟩,
         ⟨"embroidery_left", "Ricamo lato sinistro", "embroidery", 2⟩] })]

/-- Embedding of `get_product`: raises a `ValueError` for an unconfigured product type. -/
def get_product (product_type : String) : Except String ProductCfg :=
  match PRODUCTS.lookup product_type with
  | none => .error ("ValueError: Prodotto " ++ product_type ++ " non configurato")
  | some cfg => .ok cfg

/-- Embedding of `get_product_name`. -/
def get_product_name (product_type : String) : Except String String :=
  (get_product product_type).map (·.name)

/-- Embedding of `get_product_placements`. -/
def get_product_placements (product_type : String) :
    Except String (List Placement) :=
  (get_product product_type).map (·.placements)

end Products

/-! ## Variant Batch Planner

Both builders split the variant list into an initial slice and append
batches of 10, produced by slicing:
`remaining[i : i + batch_size]` for `i = 0, batch_size, 2*batch_size, …`
(clean builder) or for `batch_num in range(ceil(len/batch_size))` with
`start = batch_num * batch_size` (modular builder) — the same partition. -/

/-- The batch slicing used by both append loops:
`ceil(len/bs)` slices `l[i*bs : i*bs + bs]`. -/
def sliceChunks (bs : Nat) (l : List α) : List (List α) :=
  (List.range ((l.length + bs - 1) / bs)).map fun i => (l.drop (i * bs)).take bs

/-- Recursive view of `sliceChunks 10`, used for the proofs. -/
def chunks10 : List α → List (List α)
  | [] => []
  | x :: xs => (x :: xs.take 9) :: chunks10 (xs.drop 9)
  termination_by l => l.length
  decreasing_by simp [List.length_drop]; omega

/-- The clean builder's plan (`core/product_builder.py`):
`variants[:8]` then slices of 10 over `variants[8:]`. -/
def corePlan (variants : List α) : List α × List (List α) :=
  (variants.take 8, sliceChunks 10 (variants.drop 8))

/-- The modular builder's plan
(`modules/product_creator/product_builder.py`): `variants[:20]` then
slices of 10 over `variants[20:]`. -/
def modPlan (variants : List α) : List α × List (List α) :=
  (variants.take 20, sliceChunks 10 (variants.drop 20))

/-- The list of batch lengths produced by `chunks10`, as a function of
the input length alone. -/
def chunkLens : Nat → List Nat
  | 0 => []
  | n + 1 => min (n + 1) 10 :: chunkLens (n + 1 - 10)
  termination_by n => n
  decreasing_by omega

/-! ## Path helpers (`os.path.basename` / `os.path.splitext` on the
slash-separated paths this repository uses) -/

/-- Embedding of `os.path.basename`: the part after the last `/`. -/
def basenameOf (path : String) : String :=
  (path.splitOn "/").getLastD path

/-- The root part of `os.path.splitext`: drops the last dot-separated
extension when there is one. -/
def splitextRoot (name : String) : String :=
  let parts := name.splitOn "."
  if parts.length ≤ 1 then name else String.intercalate "." parts.dropLast

/-- Embedding of `design_name = os.path.splitext(os.path.basename(design_file))[0]`. -/
def designNameOf (design_file : String) : String :=
  splitextRoot (basenameOf design_file)

/-! ## Variants and vendor-call payloads -/

/-- A catalog variant as produced by the variant loader. -/
structure Variant where
  variant_id : Nat
  size : String
  color : String
  price : ℚ
  deriving DecidableEq, Repr

/-- A freshly built `sync_variants` payload entry
(`retail_price`, `variant_id`, `files`); the `f"{price:.2f}"` formatting
is kept as the number itself. -/
structure VariantPayload where
  retail_price : ℚ
  variant_id : Nat
  files : List FileConfig
  deriving DecidableEq, Repr

/-- An entry of the `sync_variants` list sent to the vendor: either a
bare reference `{"id": ...}` to an existing remote variant or a full new
variant payload. -/
inductive PayloadVariant where
  | ref (id? : Option Nat)
  | newVar (payload : VariantPayload)
  deriving DecidableEq, Repr

/-- A `POST`/`PUT /store/products` body. -/
structure ProductPayload where
  name : String
  thumbnail : String
  sync_variants : List PayloadVariant
  deriving DecidableEq, Repr

/-- One vendor API call as recorded in the trace. -/
structure ApiCall where
  method : String
  path : String
  payload? : Option ProductPayload
  deriving DecidableEq, Repr

/-- Vendor-call bookkeeping: how many calls were made and their trace. -/
structure CallState where
  k : Nat
  trace : List ApiCall
  deriving Repr

def initCalls : CallState := ⟨0, []⟩

/-- The vendor API as seen by the builders: the `n`-th call either raises
(`error`, e.g. transport failure after the gateway exhausted its retries)
or returns a parsed JSON body. -/
abbrev ApiOracle := Nat → Except String ApiResponse

/-- Issue one vendor call: record it and consult the oracle. -/
def doRequest (api : ApiOracle) (st : CallState) (method path : String)
    (payload? : Option ProductPayload) :
    CallState × Except String ApiResponse :=
  ({ k := st.k + 1, trace := st.trace ++ [⟨method, path, payload?⟩] }, api st.k)

/-- A build outcome (the result dict of `build` /
`build_single_product`); fields a given dict does not carry are `none`. -/
structure BuildResult where
  success : Bool
  error? : Option String
  product_id? : Option Nat
  product_name? : Option String
  product_type : String
  variants_count? : Option Nat
  total_variants_requested? : Option Nat
  total_variants_created? : Option Nat
  deriving DecidableEq, Repr

/-- A failure dict (`success: False, error: ..., product_type: ...`). -/
def failRes (product_type e : String) : BuildResult :=
  { success := false, error? := some e, product_id? := none,
    product_name? := none, product_type := product_type,
    variants_count? := none, total_variants_requested? := none,
    total_variants_created? := none }

instance {ε α : Type} [DecidableEq ε] [DecidableEq α] :
    DecidableEq (Except ε α) := fun x y =>
  match x, y with
  | .ok a, .ok b =>
    if h : a = b then .isTrue (h ▸ rfl)
    else .isFalse (fun hc => h (Except.ok.inj hc))
  | .error a, .error b =>
    if h : a = b then .isTrue (h ▸ rfl)
    else .isFalse (fun hc => h (Except.error.inj hc))
  | .ok _, .error _ => .isFalse (fun hc => Except.noConfusion hc)
  | .error _, .ok _ => .isFalse (fun hc => Except.noConfusion hc)

/-! ## FileManager (`core/file_manager.py`) -/

/-- The `_cache` dict of a `FileManager`: local path ↦ uploaded URL. -/
abbrev UrlCache := List (String × String)

/-- Python dict lookup on an association list (newest binding first). -/
def dictLookup {β : Type} (key : String) : List (String × β) → Option β
  | [] => none
  | (k, v) :: rest => if k = key then some v else dictLookup key rest

/-- Embedding of `_upload_with_cache`: return the cached URL when the path is in the
cache, otherwise invoke the uploader and cache the result; an uploader
exception propagates and caches nothing. -/
def upload_with_cache (uploader : String → Except String String)
    (cache : UrlCache) (file_path : String) :
    Except String (UrlCache × String) :=
  match dictLookup file_path cache with
  | some url => .ok (cache, url)
  | none =>
    match uploader file_path with
    | .error e => .error e
    | .ok url => .ok ((file_path, url) :: cache, url)

/-- Replay a session of upload requests through `_upload_with_cache`,
recording for each request the URL (or exception) it resolved to and
whether the underlying uploader was invoked for it. -/
def run_uploads (uploader : String → Except String String) :
    List String → UrlCache → List (String × Except String String × Bool)
  | [], _ => []
  | p :: ps, cache =>
    let invoked := (dictLookup p cache).isNone
    match upload_with_cache uploader cache p with
    | .error e => (p, .error e, invoked) :: run_uploads uploader ps cache
    | .ok (c2, url) => (p, .ok url, invoked) :: run_uploads uploader ps c2

/-- An uploader whose uploads all succeed, returning `f path`. -/
def okUploader (f : String → String) : String → Except String String :=
  fun path => .ok (f path)

/-- Whether a `run_uploads` entry is an actual uploader invocation for
path `p`. -/
def invokedFor (p : String) (e : String × Except String String × Bool) : Bool :=
  decide (e.1 = p) && e.2.2

/-- The URL dict of the clean builder (`design_url` always present;
`logo_black_url` only added on the Yupoong path). -/
structure CoreUrls where
  design_url : String
  logo_url : Option String
  upscaled_url : Option String
  logo_black_url : Option String
  deriving DecidableEq, Repr

/-- An optional upload step of `prepare_urls`
(`if os.path.exists(path): urls[...] = self._upload_with_cache(path)`). -/
def upload_optional (fs : String → Bool)
    (uploader : String → Except String String) (cache : UrlCache)
    (path : String) : Except String (UrlCache × Option String) :=
  if fs path then
    match upload_with_cache uploader cache path with
    | .error e => .error e
    | .ok (c2, u) => .ok (c2, some u)
  else .ok (cache, none)

/-- Embedding of `FileManager.prepare_urls`: upload the design (mandatory), then the
logo and the upscaled design when those files exist; upload exceptions
propagate. -/
def prepare_urls (fs : String → Bool)
    (uploader : String → Except String String)
    (cache : UrlCache) (design_file : String) :
    Except String (UrlCache × CoreUrls) :=
  match upload_with_cache uploader cache design_file with
  | .error e => .error e
  | .ok (c1, design_url) =>
    match upload_optional fs uploader c1 "generate/universal_logo.png" with
    | .error e => .error e
    | .ok (c2, logo_url) =>
      let design_name := designNameOf design_file
      match upload_optional fs uploader c2
          ("upscaled/" ++ design_name ++ ".png") with
      | .error e => .error e
      | .ok (c3, upscaled_url) =>
        .ok (c3, { design_url := design_url, logo_url := logo_url,
                   upscaled_url := upscaled_url, logo_black_url := none })

/-- Python `a or b` on optional strings (first operand when truthy). -/
def pyOr (a b : Option String) : Option String :=
  if truthy a then a else b

namespace Core
/- `core/product_builder.py` -/

/-- The per-slot loop of `_build_files_config`: bespoke dispatch for the
Yupoong and AS-Colour hats, positional rule otherwise; embroidery slots
get the thread-color option and `apply_position` overlays the catalog
position. -/
def build_files_config_loop (product_type : String) (urls : CoreUrls) :
    Nat → List Products.Placement → List FileConfig
  | _, [] => []
  | i, placement :: rest =>
    let placement_type := placement.type
    let url? : Option String :=
      if product_type = "yupoong_6089m" then
        if placement_type = "embroidery_front" then some urls.design_url
        else if placement_type = "embroidery_left" then
          let u := pyOr urls.logo_black_url urls.logo_url
          if truthy u then u else none
        else none
      else if product_type = "as_colour_1120" then
        if placement_type = "embroidery_front" then some urls.design_url
        else none
      else
        if i = 0 then some urls.design_url
        else if i = 1 ∧ truthy urls.logo_url then urls.logo_url
        else if placement_type = "back" ∧ truthy urls.upscaled_url then
          urls.upscaled_url
        else none
    match url? with
    | none => build_files_config_loop product_type urls (i + 1) rest
    | some url =>
      let file_config : FileConfig :=
        { type := placement_type, url := url
          options? :=
            if placement.design_type = "embroidery" then
              some [⟨"auto_thread_color", true⟩]
            else none
          position? := none }
      let file_config := Placements.apply_position placement_type file_config
      file_config :: build_files_config_loop product_type urls (i + 1) rest

/-- Embedding of `_build_files_config`: placement lookup (raises for an unconfigured
product) followed by the per-slot loop. -/
def build_files_config (product_type : String) (urls : CoreUrls) :
    Except String (List FileConfig) :=
  (Products.get_product_placements product_type).map
    (build_files_config_loop product_type urls 0)

/-- Embedding of `_build_variants_payload`: one payload entry per variant, each with a
freshly resolved files config. -/
def build_variants_payload (product_type : String) (variants : List Variant)
    (urls : CoreUrls) : Except String (List PayloadVariant) :=
  variants.mapM fun variant =>
    (build_files_config product_type urls).map fun files_config =>
      PayloadVariant.newVar
        { retail_price := variant.price, variant_id := variant.variant_id,
          files := files_config }

/-- Embedding of `_prepare_urls_for_product`: standard uploads, then the bespoke hat
logic.  `left_align` models `create_left_aligned_image` and
`beanie_scale` the PIL resize of the beanie branch, each returning the
temp-file path. -/
def prepare_urls_for_product (fs : String → Bool)
    (uploader left_align beanie_scale : String → Except String String)
    (cache : UrlCache) (design_file product_type : String) :
    Except String (UrlCache × CoreUrls) :=
  match prepare_urls fs uploader cache design_file with
  | .error e => .error e
  | .ok (c1, urls0) =>
    let design_name := designNameOf design_file
    if product_type = "yupoong_6089m" then
      let hat_optimized_path := "ricami/" ++ design_name ++ ".png"
      let source_file :=
        if fs hat_optimized_path then hat_optimized_path else design_file
      let step : UrlCache × CoreUrls :=
        match left_align source_file with
        | .error _ => (c1, urls0)
        | .ok left_aligned_path =>
          match upload_with_cache uploader c1 left_aligned_path with
          | .error _ => (c1, urls0)
          | .ok (c2, u) => (c2, { urls0 with design_url := u })
      let (c2, urls1) := step
      if fs "generate/logo_black.png" then
        match upload_with_cache uploader c2 "generate/logo_black.png" with
        | .error e => .error e
        | .ok (c3, u) => .ok (c3, { urls1 with logo_black_url := some u })
      else .ok (c2, urls1)
    else if product_type = "as_colour_1120" then
      let ricami_path := "ricami/" ++ design_name ++ ".png"
      if fs ricami_path then
        match beanie_scale ricami_path with
        | .error e => .error e
        | .ok temp_path =>
          match upload_with_cache uploader c1 temp_path with
          | .error e => .error e
          | .ok (c2, u) => .ok (c2, { urls0 with design_url := u })
      else
        .error ("File ottimizzato per beanie non trovato: " ++ ricami_path ++
          " - Crea il file in ricami/ prima di procedere.")
    else .ok (c1, urls0)

/-- Embedding of `_add_variants_batch`: `GET` the current remote variants, build the
batch payload, `PUT` existing references plus the new payloads; the `PUT`
response body is not inspected. -/
def add_variants_batch (api : ApiOracle) (product_id : Nat)
    (product_name product_type : String) (batch : List Variant)
    (urls : CoreUrls) (st : CallState) : CallState × Except String Unit :=
  let (st1, r) :=
    doRequest api st "GET" ("/store/products/" ++ toString product_id) none
  match r with
  | .error e => (st1, .error e)
  | .ok current =>
    match current.result? with
    | none => (st1, .error "KeyError: result")
    | some res =>
      match res.syncVariants? with
      | none => (st1, .error "KeyError: sync_variants")
      | some current_variants =>
        match current_variants.mapM (fun v =>
          match v.id? with
          | none => Except.error "KeyError: id"
          | some i => Except.ok (PayloadVariant.ref (some i))) with
        | .error e => (st1, .error e)
        | .ok existing =>
          match build_variants_payload product_type batch urls with
          | .error e => (st1, .error e)
          | .ok new_variants =>
            let update_payload : ProductPayload :=
              { name := product_name, thumbnail := urls.design_url,
                sync_variants := existing ++ new_variants }
            let (st2, r2) := doRequest api st1 "PUT"
              ("/store/products/" ++ toString product_id) (some update_payload)
            match r2 with
            | .error e => (st2, .error e)
            | .ok _ => (st2, .ok ())

/-- Phase 2 of `_create_product`: one `_add_variants_batch` per slice;
any exception propagates and aborts the remaining batches. -/
def create_product_batches (api : ApiOracle) (product_id : Nat)
    (product_name product_type : String) (urls : CoreUrls) :
    List (List Variant) → CallState → CallState × Except String Unit
  | [], st => (st, .ok ())
  | batch :: rest, st =>
    match add_variants_batch api product_id product_name product_type batch urls st with
    | (st1, .error e) => (st1, .error e)
    | (st1, .ok _) =>
      create_product_batches api product_id product_name product_type urls rest st1

/-- Embedding of `_create_product`: `POST` with `variants[:8]`, check the body code,
read `result["id"]`, then `PUT` the remaining variants in slices of 10. -/
def create_product (api : ApiOracle) (product_name product_type : String)
    (variants : List Variant) (urls : CoreUrls) (st : CallState) :
    CallState × Except String Nat :=
  let initial_batch := variants.take 8
  let remaining := variants.drop 8
  match build_variants_payload product_type initial_batch urls with
  | .error e => (st, .error e)
  | .ok sync_variants =>
    let initial_payload : ProductPayload :=
      { name := product_name, thumbnail := urls.design_url,
        sync_variants := sync_variants }
    let (st1, r) := doRequest api st "POST" "/store/products" (some initial_payload)
    match r with
    | .error e => (st1, .error e)
    | .ok response =>
      if ¬ isSuccessCode response.code? then (st1, .error "Creazione fallita")
      else
        match response.result? with
        | none => (st1, .error "KeyError: result")
        | some res =>
          match res.id? with
          | none => (st1, .error "KeyError: id")
          | some product_id =>
            match create_product_batches api product_id product_name
                product_type urls (sliceChunks 10 remaining) st1 with
            | (st2, .error e) => (st2, .error e)
            | (st2, .ok _) => (st2, .ok product_id)

/-- Embedding of `ProductBuilder.build`: name and variants, URL preparation, creation,
final `GET`; any exception anywhere is caught and becomes a failure dict. -/
def build (api : ApiOracle) (fs : String → Bool)
    (uploader left_align beanie_scale : String → Except String String)
    (load_variants : Except String (List Variant))
    (cache : UrlCache) (design_file product_type : String) :
    CallState × BuildResult :=
  let st0 := initCalls
  let design_name := designNameOf design_file
  match Products.get_product_name product_type with
  | .error e => (st0, failRes product_type e)
  | .ok base_name =>
    let product_name := design_name ++ " - " ++ base_name
    match load_variants with
    | .error e => (st0, failRes product_type e)
    | .ok variant_list =>
      match prepare_urls_for_product fs uploader left_align beanie_scale
          cache design_file product_type with
      | .error e => (st0, failRes product_type e)
      | .ok (_, urls) =>
        match create_product api product_name product_type variant_list urls st0 with
        | (st1, .error e) => (st1, failRes product_type e)
        | (st1, .ok product_id) =>
          let (st2, rfin) := doRequest api st1 "GET"
            ("/store/products/" ++ toString product_id) none
          match rfin with
          | .error e => (st2, failRes product_type e)
          | .ok final_product =>
            match final_product.result? with
            | none => (st2, failRes product_type "KeyError: result")
            | some res =>
              match res.syncVariants? with
              | none => (st2, failRes product_type "KeyError: sync_variants")
              | some svs =>
                (st2,
                 { success := true, error? := none,
                   product_id? := some product_id,
                   product_name? := some product_name,
                   product_type := product_type,
                   variants_count? := some svs.length,
                   total_variants_requested? := none,
                   total_variants_created? := none })

end Core

namespace Mod
/- `modules/product_creator/product_builder.py` -/

/-- The URL dict of the modular builder. -/
structure ModUrls where
  design_url : String
  logo_url : Option String
  upscaled_url : Option String
  deriving DecidableEq, Repr

/-- Embedding of `_prepare_product_urls`: design upload failure is re-raised with a
message; logo and upscaled upload failures are caught and leave the slot
`None`. -/
def prepare_product_urls (fs : String → Bool)
    (upload_image upload_image_with_transparency : String → Except String String)
    (design_file : String) : Except String ModUrls :=
  match upload_image design_file with
  | .error e => .error ("Errore upload design: " ++ e)
  | .ok design_url =>
    let design_name := designNameOf design_file
    let logo_url :=
      if fs "generate/universal_logo.png" then
        (upload_image "generate/universal_logo.png").toOption
      else none
    let upscaled_file := "upscaled/" ++ design_name ++ ".png"
    let upscaled_url :=
      if fs upscaled_file then
        (upload_image_with_transparency upscaled_file).toOption
      else none
    .ok { design_url := design_url, logo_url := logo_url,
          upscaled_url := upscaled_url }

/-- Embedding of `_create_variant_payload`: files config via
`create_variant_files_config`, plus price and variant id. -/
def create_variant_payload (product_type : String) (urls : ModUrls)
    (variant : Variant) : Except String VariantPayload :=
  (PlacementConfig.create_variant_files_config product_type urls.design_url
      urls.logo_url urls.upscaled_url).map fun files_config =>
    { retail_price := variant.price, variant_id := variant.variant_id,
      files := files_config }

/-- The payload list for a batch of variants. -/
def create_variant_payloads (product_type : String) (urls : ModUrls)
    (variants : List Variant) : Except String (List PayloadVariant) :=
  variants.mapM fun v =>
    (create_variant_payload product_type urls v).map PayloadVariant.newVar

/-- The batch loop of `_add_remaining_variants_batch`.  A `PUT` whose body
code is not a success is logged and skipped (`continue`), keeping the
current variant list; after a successful `PUT` the product is re-read and
the confirmed list replaces the current one when that read succeeds.
Exceptions raised by any call propagate immediately. -/
def add_batches_loop (api : ApiOracle) (product_id : Nat)
    (product_type : String) (urls : ModUrls)
    (product_name design_url : String) :
    List (List Variant) → List RemoteVariant → CallState →
    CallState × Except String (List RemoteVariant)
  | [], current_variants, st => (st, .ok current_variants)
  | batch :: rest, current_variants, st =>
    match create_variant_payloads product_type urls batch with
    | .error e => (st, .error e)
    | .ok batch_sync_variants =>
      let existing_refs := current_variants.map fun v => PayloadVariant.ref v.id?
      let update_data : ProductPayload :=
        { name := product_name, thumbnail := design_url,
          sync_variants := existing_refs ++ batch_sync_variants }
      let (st1, r) := doRequest api st "PUT"
        ("/store/products/" ++ toString product_id) (some update_data)
      match r with
      | .error e => (st1, .error e)
      | .ok batch_response =>
        if ¬ isSuccessCode batch_response.code? then
          add_batches_loop api product_id product_type urls product_name
            design_url rest current_variants st1
        else
          let (st2, r2) := doRequest api st1 "GET"
            ("/store/products/" ++ toString product_id) none
          match r2 with
          | .error e => (st2, .error e)
          | .ok updated_info =>
            if isSuccessCode updated_info.code? then
              match updated_info.result? with
              | none => (st2, .error "KeyError: result")
              | some res =>
                add_batches_loop api product_id product_type urls product_name
                  design_url rest (res.syncVariants?.getD []) st2
            else
              add_batches_loop api product_id product_type urls product_name
                design_url rest current_variants st2

/-- Embedding of `_add_remaining_variants_batch`: early exit on an empty list, initial
`GET` (non-success code raises), then the batch loop over slices of 10. -/
def add_remaining_variants_batch (api : ApiOracle) (product_id : Nat)
    (remaining_variants : List Variant) (product_type : String)
    (urls : ModUrls) (product_name design_url : String) (st : CallState) :
    CallState × Except String (List RemoteVariant) :=
  if remaining_variants.isEmpty then (st, .ok [])
  else
    let (st1, r) := doRequest api st "GET"
      ("/store/products/" ++ toString product_id) none
    match r with
    | .error e => (st1, .error e)
    | .ok current_info =>
      if ¬ isSuccessCode current_info.code? then
        (st1, .error "Errore recupero prodotto")
      else
        match current_info.result? with
        | none => (st1, .error "KeyError: result")
        | some res =>
          add_batches_loop api product_id product_type urls product_name
            design_url (sliceChunks 10 remaining_variants)
            (res.syncVariants?.getD []) st1

/-- Embedding of `build_single_product`: compatibility check, URL preparation, initial
creation with `variants[:20]`, id extraction at
`result["sync_product"]["id"]`, append batches, final `GET`; any
exception is caught at this level and becomes a failure dict, and a final
`GET` with a non-success code is itself reported as a failure dict. -/
def build_single_product (api : ApiOracle) (fs : String → Bool)
    (upload_image upload_image_with_transparency : String → Except String String)
    (design_file product_type : String) (variants : List Variant)
    (product_info_name : String) : CallState × BuildResult :=
  let st0 := initCalls
  let design_name := designNameOf design_file
  if ¬ PlacementConfig.validate_product_compatibility product_type then
    (st0, failRes product_type "Prodotto non compatibile")
  else
    match prepare_product_urls fs upload_image upload_image_with_transparency
        design_file with
    | .error e => (st0, failRes product_type e)
    | .ok urls =>
      let initial_variants := variants.take 20
      let remaining_variants := variants.drop 20
      let product_name := design_name ++ " - " ++ product_info_name
      match create_variant_payloads product_type urls initial_variants with
      | .error e => (st0, failRes product_type e)
      | .ok sync_variants =>
        let product_data : ProductPayload :=
          { name := product_name, thumbnail := urls.design_url,
            sync_variants := sync_variants }
        let (st1, r) := doRequest api st0 "POST" "/store/products" (some product_data)
        match r with
        | .error e => (st1, failRes product_type e)
        | .ok creation_response =>
          if ¬ isSuccessCode creation_response.code? then
            (st1, failRes product_type "Errore creazione prodotto")
          else
            match creation_response.result? with
            | none => (st1, failRes product_type "KeyError: result")
            | some res =>
              match res.syncProduct? with
              | none => (st1, failRes product_type "KeyError: sync_product")
              | some sp =>
                match sp.id? with
                | none => (st1, failRes product_type "KeyError: id")
                | some product_id =>
                  let next : CallState × Except String Unit :=
                    if remaining_variants.isEmpty then (st1, .ok ())
                    else
                      match add_remaining_variants_batch api product_id
                          remaining_variants product_type urls product_name
                          urls.design_url st1 with
                      | (st2, .error e) => (st2, .error e)
                      | (st2, .ok _) => (st2, .ok ())
                  match next with
                  | (st2, .error e) => (st2, failRes product_type e)
                  | (st2, .ok _) =>
                    let (st3, rf) := doRequest api st2 "GET"
                      ("/store/products/" ++ toString product_id) none
                    match rf with
                    | .error e => (st3, failRes product_type e)
                    | .ok final_info =>
                      if ¬ isSuccessCode final_info.code? then
                        (st3, failRes product_type "Errore recupero stato finale")
                      else
                        match final_info.result? with
                        | none => (st3, failRes product_type "KeyError: result")
                        | some fres =>
                          let sync_vs := fres.syncVariants?.getD []
                          (st3,
                           { success := true, error? := none,
                             product_id? := some product_id,
                             product_name? := none,
                             product_type := product_type,
                             variants_count? := none,
                             total_variants_requested? := some variants.length,
                             total_variants_created? := some sync_vs.length })

end Mod

namespace Gateway
/- `core/api_client.py` and `modules/product_creator/api_client.py` -/

/-- A raw HTTP body: parseable JSON or not. -/
inductive HttpBody where
  | jsonOk (body : ApiResponse)
  | notJson (raw : String)
  deriving DecidableEq, Repr

/-- A raw HTTP response. -/
structure HttpResponse where
  status : Nat
  retry_after? : Option Nat
  body : HttpBody
  deriving DecidableEq, Repr

/-- The outcome of one HTTP attempt. -/
inductive HttpOutcome where
  | timeout
  | connError (msg : String)
  | response (r : HttpResponse)
  deriving DecidableEq, Repr

/-- The network as seen by a gateway: attempt index ↦ outcome. -/
abbrev HttpOracle := Nat → HttpOutcome

/-- The attempt loop of `PrintfulAPIClient.request` in
`core/api_client.py`, returning how many HTTP attempts were made and the
final outcome.  A 429 before the last attempt sleeps and retries;
`raise_for_status()` turns any 4xx/5xx into an `HTTPError` (a
`RequestException`), which is retried and finally raised; a body that is
not JSON raises `JSONDecodeError`, likewise a `RequestException`. -/
def core_request_loop (oracle : HttpOracle) (retries : Nat) :
    List Nat → Nat × Except String ApiResponse
  | [] => (0, .error "Tutti i tentativi falliti")
  | attempt :: rest =>
    match oracle attempt with
    | .timeout =>
      if attempt < retries - 1 then
        let (n, r) := core_request_loop oracle retries rest
        (n + 1, r)
      else (1, .error "Timeout")
    | .connError _ =>
      if attempt < retries - 1 then
        let (n, r) := core_request_loop oracle retries rest
        (n + 1, r)
      else (1, .error "Errore richiesta")
    | .response r =>
      if r.status = 429 ∧ attempt < retries - 1 then
        let (n, r2) := core_request_loop oracle retries rest
        (n + 1, r2)
      else if 400 ≤ r.status then
        if attempt < retries - 1 then
          let (n, r2) := core_request_loop oracle retries rest
          (n + 1, r2)
        else (1, .error "Errore richiesta")
      else
        match r.body with
        | .jsonOk v => (1, .ok v)
        | .notJson _ =>
          if attempt < retries - 1 then
            let (n, r2) := core_request_loop oracle retries rest
            (n + 1, r2)
          else (1, .error "Errore richiesta")

/-- Embedding of `PrintfulAPIClient.request` of `core/api_client.py`
(`for attempt in range(retries)`). -/
def core_request (oracle : HttpOracle) (retries : Nat) :
    Nat × Except String ApiResponse :=
  core_request_loop oracle retries (List.range retries)

/-- The attempt loop of `PrintfulAPIClient.make_request` in
`modules/product_creator/api_client.py`.  `_validate_response` returns the
parsed JSON body whatever the status code (non-2xx only logs a warning);
a body that fails to parse raises a generic exception, which the generic
handler retries and finally re-raises. -/
def mod_request_loop (oracle : HttpOracle) (retries : Nat) :
    List Nat → Nat × Except String ApiResponse
  | [] => (0, .error "Tutti i tentativi falliti")
  | attempt :: rest =>
    match oracle attempt with
    | .timeout =>
      if attempt < retries - 1 then
        let (n, r) := mod_request_loop oracle retries rest
        (n + 1, r)
      else (1, .error "Timeout definitivo")
    | .connError _ =>
      if attempt < retries - 1 then
        let (n, r) := mod_request_loop oracle retries rest
        (n + 1, r)
      else (1, .error "Errore rete")
    | .response r =>
      match r.body with
      | .jsonOk result => (1, .ok result)
      | .notJson _ =>
        if attempt < retries - 1 then
          let (n, r2) := mod_request_loop oracle retries rest
          (n + 1, r2)
        else (1, .error "Risposta non JSON")

/-- Embedding of `PrintfulAPIClient.make_request` of
`modules/product_creator/api_client.py`. -/
def mod_make_request (oracle : HttpOracle) (retries : Nat) :
    Nat × Except String ApiResponse :=
  mod_request_loop oracle retries (List.range retries)

end Gateway

namespace Batch
/- `modules/product_creator/batch_processor.py` -/

/-- The names the module binds at top level: `import time`,
`from typing import Dict, List`, `from .product_builder import
ProductBuilder`, and the class definition itself.  `os` is never
imported. -/
def module_globals : List String :=
  ["time", "Dict", "List", "ProductBuilder", "BatchProcessor"]

/-- The aggregate dict built by `process_all_products`. -/
structure BatchSummary where
  success : Bool
  total_products : Nat
  products_created : Nat
  total_variants : Nat
  results : List (String × BuildResult)
  errors : List (String × String)
  deriving Repr

/-- The per-product loop of `process_all_products`: every product is
attempted, results and errors are accumulated, no early exit. -/
def run_products_loop (build : String → BuildResult) :
    List String → BatchSummary → BatchSummary
  | [], acc => acc
  | product_type :: rest, acc =>
    let result := build product_type
    let acc := { acc with results := acc.results ++ [(product_type, result)] }
    let acc :=
      if result.success then
        { acc with
          products_created := acc.products_created + 1,
          total_variants :=
            acc.total_variants + (result.total_variants_created?.getD 0) }
      else
        { acc with
          errors := acc.errors ++
            [(product_type, result.error?.getD "Errore sconosciuto")] }
    run_products_loop build rest acc

/-- Embedding of `BatchProcessor.process_all_products`.  Its second statement,
`design_filename = os.path.basename(design_file)`, resolves the global
name `os`, which the module never binds: the lookup raises `NameError`
before the loop is reached. -/
def process_all_products (build : String → BuildResult)
    (available_products : List String) (design_file : String) :
    Except String BatchSummary :=
  if "os" ∈ module_globals then
    let init : BatchSummary :=
      { success := true, total_products := available_products.length,
        products_created := 0, total_variants := 0, results := [],
        errors := [] }
    let res := run_products_loop build available_products init
    .ok { res with success := res.products_created > 0 }
  else .error "NameError: name os is not defined"

end Batch

/-! ## END OF DEFINITIONS (claim-independent helper lemmas and the claim
theorems follow) -/

theorem Placements.lookupIdx_spec (key : String) :
    ∀ (l : List (String × PositionBox)) (a : Nat),
      Placements.lookupIdx l key = some a →
      a < l.length ∧ (l.map Prod.snd)[a]? = l.lookup key := by
  intro l
  induction l with
  | nil => intro a ha; simp [Placements.lookupIdx] at ha
  | cons hd tl ih =>
    intro a ha
    obtain ⟨k, v⟩ := hd
    rw [Placements.lookupIdx] at ha
    by_cases hk : k = key
    · rw [if_pos hk] at ha
      cases ha
      subst hk
      refine ⟨by simp, ?_⟩
      simp [List.lookup]
    · rw [if_neg hk] at ha
      obtain ⟨a0, ha0, rfl⟩ := Option.map_eq_some'.mp ha
      obtain ⟨hlt, hval⟩ := ih a0 ha0
      refine ⟨by simpa using Nat.succ_lt_succ hlt, ?_⟩
      have hbe : (key == k) = false := beq_eq_false_iff_ne.mpr (Ne.symm hk)
      simp [List.lookup, hbe, hval]

theorem Placements.lookupIdx_none (key : String) :
    ∀ (l : List (String × PositionBox)),
      Placements.lookupIdx l key = none → l.lookup key = none := by
  intro l
  induction l with
  | nil => intro _; simp [List.lookup]
  | cons hd tl ih =>
    intro ha
    obtain ⟨k, v⟩ := hd
    rw [Placements.lookupIdx] at ha
    by_cases hk : k = key
    · rw [if_pos hk] at ha; cases ha
    · rw [if_neg hk] at ha
      have hbe : (key == k) = false := beq_eq_false_iff_ne.mpr (Ne.symm hk)
      simp only [Option.map_eq_none'] at ha
      simp [List.lookup, hbe, ih ha]

theorem chunks10_nil : chunks10 ([] : List α) = [] := by
  simp [chunks10]

theorem chunks10_cons (x : α) (xs : List α) :
    chunks10 (x :: xs) = (x :: xs.take 9) :: chunks10 (xs.drop 9) := by
  rw [chunks10]

theorem sliceChunks_eq_chunks10 (l : List α) : sliceChunks 10 l = chunks10 l := by
  generalize h : l.length = n
  induction n using Nat.strong_induction_on generalizing l with
  | _ n ih =>
    match l with
    | [] => rw [chunks10_nil]; simp [sliceChunks]
    | x :: xs =>
      have hn : xs.length + 1 = n := by simpa using h
      have hcnt : ((x :: xs).length + 10 - 1) / 10
          = ((xs.drop 9).length + 10 - 1) / 10 + 1 := by
        rw [List.length_cons, List.length_drop]
        omega
      have hlt : (xs.drop 9).length < n := by
        rw [List.length_drop]; omega
      have hrec : sliceChunks 10 (xs.drop 9) = chunks10 (xs.drop 9) :=
        ih (xs.drop 9).length hlt (xs.drop 9) rfl
      rw [chunks10_cons, sliceChunks, hcnt, List.range_succ_eq_map,
        List.map_cons, List.map_map, ← hrec]
      refine congrArg₂ List.cons ?_ ?_
      · rfl
      · apply List.map_congr_left
        intro i _
        show ((x :: xs).drop ((i + 1) * 10)).take 10
            = ((xs.drop 9).drop (i * 10)).take 10
        rw [List.drop_drop]
        have e1 : (i + 1) * 10 = (9 + i * 10) + 1 := by ring
        rw [e1, List.drop_succ_cons]

theorem chunks10_flatten (l : List α) : (chunks10 l).flatten = l := by
  generalize h : l.length = n
  induction n using Nat.strong_induction_on generalizing l with
  | _ n ih =>
    match l with
    | [] => rw [chunks10_nil]; rfl
    | x :: xs =>
      have hn : xs.length + 1 = n := by simpa using h
      have hlt : (xs.drop 9).length < n := by
        rw [List.length_drop]; omega
      rw [chunks10_cons, List.flatten_cons, ih (xs.drop 9).length hlt _ rfl,
        List.cons_append, List.take_append_drop]

theorem chunks10_length (l : List α) :
    (chunks10 l).length = (l.length + 9) / 10 := by
  generalize h : l.length = n
  induction n using Nat.strong_induction_on generalizing l with
  | _ n ih =>
    match l with
    | [] =>
      have h0 : n = 0 := by simpa using h.symm
      subst h0
      rw [chunks10_nil]; rfl
    | x :: xs =>
      have hn : xs.length + 1 = n := by simpa using h
      have hlt : (xs.drop 9).length < n := by
        rw [List.length_drop]; omega
      rw [chunks10_cons, List.length_cons, ih (xs.drop 9).length hlt _ rfl,
        List.length_drop]
      omega

theorem chunks10_mem_length_le (l : List α) :
    ∀ b ∈ chunks10 l, b.length ≤ 10 := by
  generalize h : l.length = n
  induction n using Nat.strong_induction_on generalizing l with
  | _ n ih =>
    match l with
    | [] =>
      intro b hb
      rw [chunks10_nil] at hb
      cases hb
    | x :: xs =>
      intro b hb
      have hn : xs.length + 1 = n := by simpa using h
      rw [chunks10_cons] at hb
      rcases List.mem_cons.mp hb with h1 | h2
      · subst h1
        rw [List.length_cons]
        have := List.length_take_le 9 xs
        omega
      · exact ih (xs.drop 9).length (by rw [List.length_drop]; omega) _ rfl b h2

theorem chunks10_map_length (l : List α) :
    (chunks10 l).map List.length = chunkLens l.length := by
  generalize h : l.length = n
  induction n using Nat.strong_induction_on generalizing l with
  | _ n ih =>
    match l with
    | [] =>
      have h0 : n = 0 := by simpa using h.symm
      subst h0
      rw [chunks10_nil]
      simp [chunkLens]
    | x :: xs =>
      have hn : xs.length + 1 = n := by simpa using h
      have hlt : (xs.drop 9).length < n := by
        rw [List.length_drop]; omega
      rw [chunks10_cons, List.map_cons, ih (xs.drop 9).length hlt _ rfl, ← hn]
      have h2 : (x :: xs.take 9).length = min (xs.length + 1) 10 := by
        rw [List.length_cons, List.length_take]
        omega
      have h3 : (xs.drop 9).length = xs.length + 1 - 10 := by
        rw [List.length_drop]
        omega
      rw [h2, h3]
      simp only [chunkLens]

theorem sliceChunks10_flatten (l : List α) : (sliceChunks 10 l).flatten = l := by
  rw [sliceChunks_eq_chunks10, chunks10_flatten]

theorem sliceChunks10_length (l : List α) :
    (sliceChunks 10 l).length = (l.length + 9) / 10 := by
  rw [sliceChunks_eq_chunks10, chunks10_length]

theorem chunkLens_37 : chunkLens 37 = [10, 10, 10, 7] := by
  simp [chunkLens]

/-- Claim C2: for a variant list of length `N`, each planner produces the
initial batch `variants[:K]` — the first `min(N, K)` variants, with `K = 8`
in the clean builder and `K = 20` in the modular builder — followed by
`ceil((N - K)/10)` append batches, each of size at most 10, whose
concatenation after the initial batch restores the original list in the
original order; for `N = 45` and `K = 8` the append batch sizes are
`[10, 10, 10, 7]`. -/
theorem variant_batch_planner_partition {α : Type} (l : List α) :
    (corePlan l).1 = l.take 8 ∧
    (corePlan l).1.length = min l.length 8 ∧
    (corePlan l).1 ++ (corePlan l).2.flatten = l ∧
    (corePlan l).2.length = (l.length - 8 + 9) / 10 ∧
    (∀ b ∈ (corePlan l).2, b.length ≤ 10) ∧
    (modPlan l).1 = l.take 20 ∧
    (modPlan l).1.length = min l.length 20 ∧
    (modPlan l).1 ++ (modPlan l).2.flatten = l ∧
    (modPlan l).2.length = (l.length - 20 + 9) / 10 ∧
    (∀ b ∈ (modPlan l).2, b.length ≤ 10) ∧
    (l.length = 45 → (corePlan l).2.map List.length = [10, 10, 10, 7]) := by
  refine ⟨rfl, ?_, ?_, ?_, ?_, rfl, ?_, ?_, ?_, ?_, ?_⟩
  · rw [corePlan, List.length_take, Nat.min_comm]
  · rw [corePlan, sliceChunks10_flatten, List.take_append_drop]
  · rw [corePlan, sliceChunks10_length, List.length_drop]
  · intro b hb
    rw [corePlan, sliceChunks_eq_chunks10] at hb
    exact chunks10_mem_length_le _ b hb
  · rw [modPlan, List.length_take, Nat.min_comm]
  · rw [modPlan, sliceChunks10_flatten, List.take_append_drop]
  · rw [modPlan, sliceChunks10_length, List.length_drop]
  · intro b hb
    rw [modPlan, sliceChunks_eq_chunks10] at hb
    exact chunks10_mem_length_le _ b hb
  · intro h45
    rw [corePlan, sliceChunks_eq_chunks10, chunks10_map_length,
      List.length_drop, h45]
    exact chunkLens_37

/-- Witness for `variant_batch_planner_partition` at the 45-element list
`List.range 45`: the hypothesis of the final conjunct holds and the append
batch sizes are `[10, 10, 10, 7]`. -/
theorem variant_batch_planner_partition_witness :
    (List.range 45).length = 45 ∧
    (corePlan (List.range 45)).2.map List.length = [10, 10, 10, 7] ∧
    (corePlan (List.range 45)).1 ++ (corePlan (List.range 45)).2.flatten
      = List.range 45 := by
  have h := variant_batch_planner_partition (List.range 45)
  have h45 : (List.range 45).length = 45 := by decide
  exact ⟨h45, (h.2.2.2.2.2.2.2.2.2.2) h45, h.2.2.1⟩

open Placements in
/-- Claim C8: for every placement type with a configured catalog
PositionBox, the position attached by `apply_position` is value-equal to
the catalog dict but is a distinct object — mutating it afterwards leaves
the catalog entry unchanged — and a placement type with no configured
PositionBox leaves the config without a position field. -/
theorem apply_position_deep_copy (placement_type : String)
    (fc : FileConfigP Nat) (hfc : fc.position? = none) :
    (∀ a, catalog_addr placement_type = some a →
      ∃ fresh,
        (apply_position_store init_store placement_type fc).2.position?
          = some fresh ∧
        fresh ≠ a ∧
        read_cell (apply_position_store init_store placement_type fc).1 fresh
          = read_cell (apply_position_store init_store placement_type fc).1 a ∧
        read_cell (apply_position_store init_store placement_type fc).1 a
          = read_cell init_store a ∧
        ∀ v, read_cell
            (write_cell (apply_position_store init_store placement_type fc).1
              fresh v) a
          = read_cell init_store a) ∧
    (catalog_addr placement_type = none →
      (apply_position_store init_store placement_type fc).2.position?
        = none) := by
  constructor
  · intro a ha
    obtain ⟨hlt, hval⟩ := lookupIdx_spec placement_type ALL_PLACEMENTS a ha
    have hlen : init_store.cells.length = ALL_PLACEMENTS.length := by
      simp [init_store]
    have hlt' : a < (ALL_PLACEMENTS.map Prod.snd).length := by
      simpa using hlt
    have hsome : (ALL_PLACEMENTS.map Prod.snd)[a]?
        = some ((ALL_PLACEMENTS.map Prod.snd)[a]) :=
      List.getElem?_eq_getElem hlt'
    set v := (ALL_PLACEMENTS.map Prod.snd)[a] with hvdef
    have hlook : get_placement_config placement_type = some v := by
      rw [get_placement_config, ← hval, hsome]
    have hread : read_cell init_store a = some v := by
      show (ALL_PLACEMENTS.map Prod.snd)[a]? = some v
      rw [hsome]
    have happ : apply_position_store init_store placement_type fc
        = (⟨init_store.cells ++ [v]⟩,
           { fc with position? := some init_store.cells.length }) := by
      simp only [apply_position_store, hlook]
    refine ⟨init_store.cells.length, ?_, by omega, ?_, ?_, ?_⟩
    · rw [happ]
    · rw [happ]
      show (init_store.cells ++ [v])[init_store.cells.length]?
          = (init_store.cells ++ [v])[a]?
      rw [List.getElem?_concat_length,
        List.getElem?_append_left (show a < init_store.cells.length by omega)]
      exact hread.symm
    · rw [happ]
      show (init_store.cells ++ [v])[a]? = read_cell init_store a
      rw [List.getElem?_append_left (show a < init_store.cells.length by omega)]
      rfl
    · intro w
      rw [happ]
      show ((init_store.cells ++ [v]).set init_store.cells.length w)[a]?
          = read_cell init_store a
      rw [List.getElem?_set_ne (show init_store.cells.length ≠ a by omega),
        List.getElem?_append_left (show a < init_store.cells.length by omega)]
      rfl
  · intro ha
    have hnone : get_placement_config placement_type = none := by
      rw [get_placement_config]
      exact lookupIdx_none placement_type ALL_PLACEMENTS ha
    simp only [apply_position_store, hnone]
    exact hfc

/-- Witness for `apply_position_deep_copy` at `embroidery_front`, whose
catalog dict sits at address 0, with a bare file config. -/
theorem apply_position_deep_copy_witness :
    Placements.catalog_addr "embroidery_front" = some 0 ∧
    ∃ fresh,
      (Placements.apply_position_store Placements.init_store "embroidery_front"
        ⟨"embroidery_front", "u", none, none⟩).2.position? = some fresh ∧
      fresh ≠ 0 ∧
      Placements.read_cell
        (Placements.apply_position_store Placements.init_store "embroidery_front"
          ⟨"embroidery_front", "u", none, none⟩).1 fresh
        = Placements.read_cell
          (Placements.apply_position_store Placements.init_store "embroidery_front"
            ⟨"embroidery_front", "u", none, none⟩).1 0 ∧
      Placements.read_cell
        (Placements.apply_position_store Placements.init_store "embroidery_front"
          ⟨"embroidery_front", "u", none, none⟩).1 0
        = Placements.read_cell Placements.init_store 0 ∧
      ∀ v, Placements.read_cell
          (Placements.write_cell
            (Placements.apply_position_store Placements.init_store
              "embroidery_front" ⟨"embroidery_front", "u", none, none⟩).1
            fresh v) 0
        = Placements.read_cell Placements.init_store 0 :=
  ⟨by decide,
   (apply_position_deep_copy "embroidery_front"
     ⟨"embroidery_front", "u", none, none⟩ rfl).1 0 (by decide)⟩

theorem run_uploads_result (f : String → String) (p : String) :
    ∀ (reqs : List String) (cache : UrlCache),
      (∀ u, dictLookup p cache = some u → u = f p) →
      ∀ e ∈ run_uploads (okUploader f) reqs cache,
        e.1 = p → e.2.1 = .ok (f p) := by
  intro reqs
  induction reqs with
  | nil =>
    intro cache hc e he
    simp [run_uploads] at he
  | cons q qs ih =>
    intro cache hc e he hep
    rcases hdl : dictLookup q cache with _ | url
    · simp only [run_uploads, upload_with_cache, okUploader, hdl] at he
      rcases List.mem_cons.mp he with rfl | he2
      · simp only at hep ⊢
        rw [hep]
      · refine ih ((q, f q) :: cache) ?_ e he2 hep
        intro u hu
        rw [dictLookup] at hu
        by_cases hq : q = p
        · rw [if_pos hq] at hu
          cases hu
          rw [hq]
        · rw [if_neg hq] at hu
          exact hc u hu
    · simp only [run_uploads, upload_with_cache, okUploader, hdl] at he
      rcases List.mem_cons.mp he with rfl | he2
      · simp only at hep ⊢
        subst hep
        rw [hc url (by rw [← hdl])]
      · exact ih cache hc e he2 hep

theorem run_uploads_no_invoke (f : String → String) (p : String) :
    ∀ (reqs : List String) (cache : UrlCache) (u : String),
      dictLookup p cache = some u →
      List.countP (invokedFor p) (run_uploads (okUploader f) reqs cache) = 0 := by
  intro reqs
  induction reqs with
  | nil =>
    intro cache u hu
    simp [run_uploads]
  | cons q qs ih =>
    intro cache u hu
    rcases hdl : dictLookup q cache with _ | url
    · have hq : q ≠ p := by
        intro hqp
        rw [hqp, hu] at hdl
        cases hdl
      simp only [run_uploads, upload_with_cache, okUploader, hdl,
        List.countP_cons, invokedFor]
      rw [if_neg (by simp [hq])]
      have hu2 : dictLookup p ((q, f q) :: cache) = some u := by
        rw [dictLookup, if_neg hq]
        exact hu
      rw [ih ((q, f q) :: cache) u hu2]
    · simp only [run_uploads, upload_with_cache, okUploader, hdl,
        List.countP_cons, invokedFor]
      rw [if_neg (by simp)]
      rw [ih cache u hu]

theorem run_uploads_once (f : String → String) (p : String) :
    ∀ (reqs : List String) (cache : UrlCache),
      List.countP (invokedFor p) (run_uploads (okUploader f) reqs cache) ≤ 1 := by
  intro reqs
  induction reqs with
  | nil =>
    intro cache
    simp [run_uploads]
  | cons q qs ih =>
    intro cache
    rcases hdl : dictLookup q cache with _ | url
    · simp only [run_uploads, upload_with_cache, okUploader, hdl,
        List.countP_cons, invokedFor]
      by_cases hq : q = p
      · subst hq
        rw [if_pos (by simp)]
        have h0 : List.countP (invokedFor q)
            (run_uploads (okUploader f) qs ((q, f q) :: cache)) = 0 :=
          run_uploads_no_invoke f q qs ((q, f q) :: cache) (f q)
            (by rw [dictLookup, if_pos rfl])
        omega
      · rw [if_neg (by simp [hq])]
        have := ih ((q, f q) :: cache)
        omega
    · simp only [run_uploads, upload_with_cache, okUploader, hdl,
        List.countP_cons, invokedFor]
      rw [if_neg (by simp)]
      have := ih cache
      omega

/-- Claim C9: within one session, the asset-URL cache resolves a given
local path to exactly one URL — the underlying uploader is invoked at most
once per distinct path, and every request for that path returns the same
cached URL. -/
theorem upload_cache_idempotent (f : String → String) (reqs : List String)
    (p : String) :
    List.countP (invokedFor p) (run_uploads (okUploader f) reqs []) ≤ 1 ∧
    ∀ e ∈ run_uploads (okUploader f) reqs [], e.1 = p → e.2.1 = .ok (f p) := by
  refine ⟨run_uploads_once f p reqs [], run_uploads_result f p reqs [] ?_⟩
  intro u hu
  simp [dictLookup] at hu

/-- Witness for `upload_cache_idempotent`: in the session
`["a", "b", "a"]` the path `a` is uploaded once and the second request
for it is served from the cache with the same URL. -/
theorem upload_cache_idempotent_witness :
    List.countP (invokedFor "a")
      (run_uploads (okUploader (fun _ => "u")) ["a", "b", "a"] []) ≤ 1 ∧
    ("a", Except.ok "u", false)
      ∈ run_uploads (okUploader (fun _ => "u")) ["a", "b", "a"] [] ∧
    (("a", Except.ok "u", false) : String × Except String String × Bool).2.1
      = Except.ok ((fun _ => "u") "a") :=
  ⟨(upload_cache_idempotent (fun _ => "u") ["a", "b", "a"] "a").1,
   by decide,
   (upload_cache_idempotent (fun _ => "u") ["a", "b", "a"] "a").2
     ("a", Except.ok "u", false) (by decide) (by decide)⟩

/-- Claim C10: `BatchProcessor.process_all_products` resolves the global
name `os` before any product build is attempted, and the module never
imports `os`: for every input the call raises `NameError` and returns no
per-product results or error aggregate. -/
theorem process_all_products_name_error (build : String → BuildResult)
    (available_products : List String) (design_file : String) :
    Batch.process_all_products build available_products design_file
      = .error "NameError: name os is not defined" := by
  rw [Batch.process_all_products, if_neg]
  decide

theorem apply_universal_positioning_preserves (pt : String) (fc : FileConfig) :
    (PlacementConfig.apply_universal_positioning pt fc).type = fc.type ∧
    (PlacementConfig.apply_universal_positioning pt fc).url = fc.url := by
  unfold PlacementConfig.apply_universal_positioning
  cases PlacementConfig.UNIVERSAL_SLEEVE_OFFSET.lookup pt with
  | some p => exact ⟨rfl, rfl⟩
  | none =>
    cases PlacementConfig.UNIVERSAL_CHEST_OFFSET.lookup pt with
    | some p => exact ⟨rfl, rfl⟩
    | none => exact ⟨rfl, rfl⟩

theorem apply_position_preserves (pt : String) (fc : FileConfig) :
    (Placements.apply_position pt fc).type = fc.type ∧
    (Placements.apply_position pt fc).url = fc.url := by
  unfold Placements.apply_position
  cases Placements.get_placement_config pt with
  | some p => exact ⟨rfl, rfl⟩
  | none => exact ⟨rfl, rfl⟩

/-- Claim C7: for a generic (non-bespoke) product type whose three
placement slots are, in order, a design slot, a logo slot and a `back`
print slot, resolving with the design and logo URLs present and the
upscaled URL absent yields exactly two file configs — the design slot
carrying the primary URL and the logo slot carrying the logo URL — with
the back slot omitted.  This holds in both resolvers: the modular
`create_variant_files_config` loop and the clean builder's
`_build_files_config` loop. -/
theorem generic_three_slot_resolution
    (t0 t1 d0 d1 d2 s0 s1 s2 : String)
    (design_url logo_url : String) (hlogo : logo_url ≠ "")
    (product_type : String)
    (hp1 : product_type ≠ "yupoong_6089m")
    (hp2 : product_type ≠ "as_colour_1120") :
    ((PlacementConfig.files_config_loop design_url (some logo_url) none 0
        [⟨t0, s0, d0⟩, ⟨t1, s1, d1⟩, ⟨"back", s2, d2⟩]).map
      (fun c => (c.type, c.url)) = [(t0, design_url), (t1, logo_url)]) ∧
    ((Core.build_files_config_loop product_type
        { design_url := design_url, logo_url := some logo_url,
          upscaled_url := none, logo_black_url := none } 0
        [⟨t0, s0, d0, 1⟩, ⟨t1, s1, d1, 2⟩, ⟨"back", s2, d2, 3⟩]).map
      (fun c => (c.type, c.url)) = [(t0, design_url), (t1, logo_url)]) := by
  constructor
  · simp [PlacementConfig.files_config_loop, truthy, hlogo,
      apply_universal_positioning_preserves]
  · simp [Core.build_files_config_loop, truthy, pyOr, hp1, hp2, hlogo,
      apply_position_preserves]

/-- Witness for `generic_three_slot_resolution`: the `gildan_5000` slots
with concrete URLs. -/
theorem generic_three_slot_resolution_witness :
    ("lu" : String) ≠ "" ∧
    ("gildan_5000" : String) ≠ "yupoong_6089m" ∧
    ("gildan_5000" : String) ≠ "as_colour_1120" ∧
    ((PlacementConfig.files_config_loop "du" (some "lu") none 0
        [⟨"embroidery_chest_left", "Ricamo petto sinistro", "embroidery"⟩,
         ⟨"embroidery_sleeve_left_top", "Ricamo manica sinistra", "embroidery"⟩,
         ⟨"back", "Stampa DTG retro", "dtg"⟩]).map
      (fun c => (c.type, c.url))
      = [("embroidery_chest_left", "du"), ("embroidery_sleeve_left_top", "lu")]) ∧
    ((Core.build_files_config_loop "gildan_5000"
        { design_url := "du", logo_url := some "lu",
          upscaled_url := none, logo_black_url := none } 0
        [⟨"embroidery_chest_left", "Ricamo petto sinistro", "embroidery", 1⟩,
         ⟨"embroidery_sleeve_left_top", "Ricamo manica sinistra", "embroidery", 2⟩,
         ⟨"back", "Stampa DTG retro", "dtg", 3⟩]).map
      (fun c => (c.type, c.url))
      = [("embroidery_chest_left", "du"), ("embroidery_sleeve_left_top", "lu")]) := by
  have h := generic_three_slot_resolution
    "embroidery_chest_left" "embroidery_sleeve_left_top"
    "embroidery" "embroidery" "dtg"
    "Ricamo petto sinistro" "Ricamo manica sinistra" "Stampa DTG retro"
    "du" "lu" (by decide) "gildan_5000" (by decide) (by decide)
  exact ⟨by decide, by decide, by decide, h.1, h.2⟩

/-- Claim C6 counterexample: through the clean gateway
(`core/api_client.py`), a 404 response whose body parsed as JSON is
retried on all three attempts and finally raised as an exception — the
parsed body is never returned to the caller, contrary to the claim that
such a response is not retried and is returned. -/
theorem core_gateway_retries_error_payload :
    Gateway.core_request
      (fun _ => Gateway.HttpOutcome.response
        ⟨404, none, Gateway.HttpBody.jsonOk ⟨some 404, none⟩⟩) 3
      = (3, Except.error "Errore richiesta") := by
  decide

/-- Claim C6 (amended): the modular gateway
(`modules/product_creator/api_client.py`) returns any response body that
parsed as JSON — whatever its status — after a single attempt, without
retrying; the clean gateway (`core/api_client.py`) instead raises for a
4xx/5xx status, retries it until the three-attempt budget is exhausted and
then raises, never returning the parsed body. -/
theorem gateway_error_payload_handling
    (oracle : Gateway.HttpOracle) (s : Nat) (ra : Option Nat)
    (v : ApiResponse)
    (h0 : oracle 0 = .response ⟨s, ra, .jsonOk v⟩) :
    Gateway.mod_make_request oracle 3 = (1, .ok v) ∧
    ((∀ i, oracle i = .response ⟨s, ra, .jsonOk v⟩) → 400 ≤ s →
      Gateway.core_request oracle 3 = (3, .error "Errore richiesta")) := by
  have hr : List.range 3 = [0, 1, 2] := by decide
  constructor
  · rw [Gateway.mod_make_request, hr, Gateway.mod_request_loop, h0]
  · intro hall hs
    rw [Gateway.core_request, hr]
    by_cases h429 : s = 429
    · subst h429
      simp [Gateway.core_request_loop, hall]
    · simp [Gateway.core_request_loop, hall, h429, hs]

/-- Witness for `gateway_error_payload_handling` at a constant 404
response with a JSON body. -/
theorem gateway_error_payload_handling_witness :
    Gateway.mod_make_request
      (fun _ => Gateway.HttpOutcome.response
        ⟨404, none, Gateway.HttpBody.jsonOk ⟨some 404, none⟩⟩) 3
      = (1, .ok ⟨some 404, none⟩) ∧
    Gateway.core_request
      (fun _ => Gateway.HttpOutcome.response
        ⟨404, none, Gateway.HttpBody.jsonOk ⟨some 404, none⟩⟩) 3
      = (3, .error "Errore richiesta") :=
  have h := gateway_error_payload_handling
    (fun _ => Gateway.HttpOutcome.response
      ⟨404, none, Gateway.HttpBody.jsonOk ⟨some 404, none⟩⟩)
    404 none ⟨some 404, none⟩ rfl
  ⟨h.1, h.2 (fun _ => rfl) (by decide)⟩

theorem upload_with_cache_ok (f : String → String) (cache : UrlCache)
    (p : String) :
    ∃ c u, upload_with_cache (okUploader f) cache p = .ok (c, u) := by
  rw [upload_with_cache]
  cases dictLookup p cache with
  | some url => exact ⟨cache, url, rfl⟩
  | none => exact ⟨(p, f p) :: cache, f p, rfl⟩

theorem upload_optional_ok (fs : String → Bool) (f : String → String)
    (cache : UrlCache) (p : String) :
    ∃ c u, upload_optional fs (okUploader f) cache p = .ok (c, u) := by
  rw [upload_optional]
  by_cases hfs : fs p
  · rw [if_pos hfs]
    obtain ⟨c, u, h⟩ := upload_with_cache_ok f cache p
    rw [h]
    exact ⟨c, some u, rfl⟩
  · rw [if_neg hfs]
    exact ⟨cache, none, rfl⟩

theorem prepare_urls_ok (fs : String → Bool) (f : String → String)
    (cache : UrlCache) (df : String) :
    ∃ c urls, prepare_urls fs (okUploader f) cache df = .ok (c, urls) := by
  obtain ⟨c1, u1, h1⟩ := upload_with_cache_ok f cache df
  obtain ⟨c2, u2, h2⟩ := upload_optional_ok fs f c1 "generate/universal_logo.png"
  obtain ⟨c3, u3, h3⟩ :=
    upload_optional_ok fs f c2 ("upscaled/" ++ designNameOf df ++ ".png")
  exact ⟨c3, ⟨u1, u2, u3, none⟩, by simp only [prepare_urls, h1, h2, h3]⟩

/-- Claim C5: for the beanie product type `as_colour_1120`, when the
required pre-processed asset `ricami/<design_name>.png` is absent the
clean builder raises the precondition error and the build terminates as a
failed BuildResult with an empty vendor-call trace — no
`POST /store/products` is ever issued, and the missing asset is never
treated as a skip. -/
theorem beanie_missing_asset_aborts
    (api : ApiOracle) (fs : String → Bool)
    (upl la bs : String → String) (variants : List Variant)
    (cache : UrlCache) (design_file : String)
    (hmiss : fs ("ricami/" ++ designNameOf design_file ++ ".png") = false) :
    (Core.build api fs (okUploader upl) (okUploader la) (okUploader bs)
        (.ok variants) cache design_file "as_colour_1120").1.trace = [] ∧
    (Core.build api fs (okUploader upl) (okUploader la) (okUploader bs)
        (.ok variants) cache design_file "as_colour_1120").2.success = false ∧
    (Core.build api fs (okUploader upl) (okUploader la) (okUploader bs)
        (.ok variants) cache design_file "as_colour_1120").2.error?
      = some ("File ottimizzato per beanie non trovato: "
          ++ ("ricami/" ++ designNameOf design_file ++ ".png")
          ++ " - Crea il file in ricami/ prima di procedere.") := by
  have hname : Products.get_product_name "as_colour_1120"
      = .ok "AS Colour 1120 - Beanie" := by decide
  obtain ⟨c1, urls0, hprep⟩ := prepare_urls_ok fs upl cache design_file
  have hpfp : Core.prepare_urls_for_product fs (okUploader upl)
      (okUploader la) (okUploader bs) cache design_file "as_colour_1120"
      = .error ("File ottimizzato per beanie non trovato: "
          ++ ("ricami/" ++ designNameOf design_file ++ ".png")
          ++ " - Crea il file in ricami/ prima di procedere.") := by
    rw [Core.prepare_urls_for_product, hprep]
    simp [hmiss]
  rw [Core.build, hname]
  rw [hpfp]
  exact ⟨rfl, rfl, rfl⟩

/-- Witness for `beanie_missing_asset_aborts` at the design file
`designs/drago.png` on an empty filesystem: no vendor call, failed
result, precondition error message. -/
theorem beanie_missing_asset_aborts_witness :
    ((fun _ => false : String → Bool)
      ("ricami/" ++ designNameOf "designs/drago.png" ++ ".png") = false) ∧
    (Core.build (fun _ => .ok ⟨some 200, none⟩) (fun _ => false)
        (okUploader (fun _ => "u")) (okUploader (fun _ => "v"))
        (okUploader (fun _ => "w")) (.ok []) [] "designs/drago.png"
        "as_colour_1120").1.trace = [] ∧
    (Core.build (fun _ => .ok ⟨some 200, none⟩) (fun _ => false)
        (okUploader (fun _ => "u")) (okUploader (fun _ => "v"))
        (okUploader (fun _ => "w")) (.ok []) [] "designs/drago.png"
        "as_colour_1120").2.success = false :=
  have h := beanie_missing_asset_aborts (fun _ => .ok ⟨some 200, none⟩)
    (fun _ => false) (fun _ => "u") (fun _ => "v") (fun _ => "w")
    [] [] "designs/drago.png" rfl
  ⟨rfl, h.1, h.2.1⟩

/-- Claim C1 (amended): in the modular append loop a `PUT` that completes
with a non-success code is handled per batch — the loop continues to the
next batch, reusing the last successfully-confirmed remote variant list,
whose references form that `PUT` payload — but an exception raised by a
call inside the loop is not caught per batch: it aborts the loop and the
remaining batches immediately and is caught only by the build-level
handler, which fails the whole build (and the clean builder's append
loop has no per-batch handling at all, so there even a single failed
`PUT` aborts the build). -/
theorem append_batch_failure_handling
    (api : ApiOracle) (pid : Nat) (ptype : String) (urls : Mod.ModUrls)
    (pname du : String) (batch : List Variant) (rest : List (List Variant))
    (current : List RemoteVariant) (st : CallState)
    (pvs : List PayloadVariant)
    (hpv : Mod.create_variant_payloads ptype urls batch = .ok pvs) :
    (∀ resp, api st.k = .ok resp → isSuccessCode resp.code? = false →
      Mod.add_batches_loop api pid ptype urls pname du (batch :: rest) current st
        = Mod.add_batches_loop api pid ptype urls pname du rest current
            { k := st.k + 1,
              trace := st.trace ++
                [⟨"PUT", "/store/products/" ++ toString pid,
                  some { name := pname, thumbnail := du,
                         sync_variants :=
                           (current.map fun v => PayloadVariant.ref v.id?)
                             ++ pvs }⟩] }) ∧
    (∀ e, api st.k = .error e →
      Mod.add_batches_loop api pid ptype urls pname du (batch :: rest) current st
        = ({ k := st.k + 1,
             trace := st.trace ++
               [⟨"PUT", "/store/products/" ++ toString pid,
                 some { name := pname, thumbnail := du,
                        sync_variants :=
                          (current.map fun v => PayloadVariant.ref v.id?)
                            ++ pvs }⟩] },
           .error e)) := by
  constructor
  · intro resp hapi hcode
    rw [Mod.add_batches_loop, hpv]
    simp only [doRequest, hapi, hcode]
    simp
  · intro e hapi
    rw [Mod.add_batches_loop, hpv]
    simp only [doRequest, hapi]

/-- Witness for `append_batch_failure_handling` on a one-variant batch
with one confirmed remote variant: a 400-coded `PUT` makes the loop
continue with the same confirmed list; a raised exception makes it abort
with that exception. -/
theorem append_batch_failure_handling_witness :
    (Mod.add_batches_loop (fun _ => .ok ⟨some 400, none⟩) 7 "gildan_5000"
        ⟨"du", none, none⟩ "P" "du"
        [[⟨1000, "M", "Black", 25⟩]] [⟨some 1⟩] initCalls
      = Mod.add_batches_loop (fun _ => .ok ⟨some 400, none⟩) 7 "gildan_5000"
          ⟨"du", none, none⟩ "P" "du" [] [⟨some 1⟩]
          { k := initCalls.k + 1,
            trace := initCalls.trace ++
              [⟨"PUT", "/store/products/" ++ toString 7,
                some { name := "P", thumbnail := "du",
                       sync_variants :=
                         (([⟨some 1⟩] : List RemoteVariant).map
                           fun v => PayloadVariant.ref v.id?)
                           ++ [PayloadVariant.newVar
                                ⟨25, 1000,
                                 [⟨"embroidery_chest_left", "du",
                                   some [⟨"auto_thread_color", true⟩],
                                   some ⟨18, 24, 2, 2, 3, 4, true⟩⟩]⟩] }⟩] }) ∧
    (Mod.add_batches_loop (fun _ => .error "boom") 7 "gildan_5000"
        ⟨"du", none, none⟩ "P" "du"
        [[⟨1000, "M", "Black", 25⟩]] [⟨some 1⟩] initCalls
      = ({ k := initCalls.k + 1,
           trace := initCalls.trace ++
             [⟨"PUT", "/store/products/" ++ toString 7,
               some { name := "P", thumbnail := "du",
                      sync_variants :=
                        (([⟨some 1⟩] : List RemoteVariant).map
                          fun v => PayloadVariant.ref v.id?)
                          ++ [PayloadVariant.newVar
                               ⟨25, 1000,
                                [⟨"embroidery_chest_left", "du",
                                  some [⟨"auto_thread_color", true⟩],
                                  some ⟨18, 24, 2, 2, 3, 4, true⟩⟩]⟩] }⟩] },
         .error "boom")) :=
  ⟨(append_batch_failure_handling (fun _ => .ok ⟨some 400, none⟩) 7
      "gildan_5000" ⟨"du", none, none⟩ "P" "du" [⟨1000, "M", "Black", 25⟩] []
      [⟨some 1⟩] initCalls _ (by decide)).1 ⟨some 400, none⟩ rfl (by decide),
   (append_batch_failure_handling (fun _ => .error "boom") 7
      "gildan_5000" ⟨"du", none, none⟩ "P" "du" [⟨1000, "M", "Black", 25⟩] []
      [⟨some 1⟩] initCalls _ (by decide)).2 "boom" rfl⟩

/-- Claim C1 counterexample: an exception raised by the `PUT` of the first
append batch is not caught per batch.  In the modular builder (40
variants, two append batches) the loop aborts after the third vendor call
— `POST`, initial `GET`, failing `PUT` — so the second batch never
executes and the whole build is reported failed with that exception; in
the clean builder (9 variants, one append batch) the same failure likewise
turns the whole build into a failure. -/
theorem append_loop_exception_aborts :
    ((Mod.build_single_product
        (fun n => if n = 0 then .ok ⟨some 200, some ⟨none, some ⟨some 7⟩, some []⟩⟩
          else if n = 1 then .ok ⟨some 200, some ⟨none, none, some [⟨some 1⟩]⟩⟩
          else .error "boom")
        (fun _ => false) (okUploader fun _ => "du") (okUploader fun _ => "up")
        "d.png" "gildan_5000"
        ((List.range 40).map fun i => ⟨1000 + i, "M", "Black", 25⟩)
        "T").2.success = false) ∧
    ((Mod.build_single_product
        (fun n => if n = 0 then .ok ⟨some 200, some ⟨none, some ⟨some 7⟩, some []⟩⟩
          else if n = 1 then .ok ⟨some 200, some ⟨none, none, some [⟨some 1⟩]⟩⟩
          else .error "boom")
        (fun _ => false) (okUploader fun _ => "du") (okUploader fun _ => "up")
        "d.png" "gildan_5000"
        ((List.range 40).map fun i => ⟨1000 + i, "M", "Black", 25⟩)
        "T").2.error? = some "boom") ∧
    ((Mod.build_single_product
        (fun n => if n = 0 then .ok ⟨some 200, some ⟨none, some ⟨some 7⟩, some []⟩⟩
          else if n = 1 then .ok ⟨some 200, some ⟨none, none, some [⟨some 1⟩]⟩⟩
          else .error "boom")
        (fun _ => false) (okUploader fun _ => "du") (okUploader fun _ => "up")
        "d.png" "gildan_5000"
        ((List.range 40).map fun i => ⟨1000 + i, "M", "Black", 25⟩)
        "T").1.trace.map (fun c => c.method) = ["POST", "GET", "PUT"]) ∧
    ((Core.build
        (fun n => if n = 0 then .ok ⟨some 200, some ⟨some 7, none, some []⟩⟩
          else if n = 1 then .ok ⟨some 200, some ⟨none, none, some []⟩⟩
          else .error "boom")
        (fun _ => false) (okUploader fun _ => "du") (okUploader fun _ => "x")
        (okUploader fun _ => "y")
        (.ok ((List.range 9).map fun i => ⟨1000 + i, "M", "Black", 25⟩))
        [] "d.png" "gildan_5000").2.success = false) ∧
    ((Core.build
        (fun n => if n = 0 then .ok ⟨some 200, some ⟨some 7, none, some []⟩⟩
          else if n = 1 then .ok ⟨some 200, some ⟨none, none, some []⟩⟩
          else .error "boom")
        (fun _ => false) (okUploader fun _ => "du") (okUploader fun _ => "x")
        (okUploader fun _ => "y")
        (.ok ((List.range 9).map fun i => ⟨1000 + i, "M", "Black", 25⟩))
        [] "d.png" "gildan_5000").2.error? = some "boom") := by
  refine ⟨?_, ?_, ?_, ?_, ?_⟩ <;> decide

theorem mod_build_single_reduce
    (respPost respFin : ApiResponse) (res : ApiResult) (sp : SyncProductObj)
    (pid : Nat) (v : Variant) (f g : String → String) (df info : String)
    (hc : isSuccessCode respPost.code? = true)
    (hres : respPost.result? = some res)
    (hsp : res.syncProduct? = some sp)
    (hid : sp.id? = some pid) :
    Mod.build_single_product
      (fun n => if n = 0 then .ok respPost else .ok respFin)
      (fun _ => false) (okUploader f) (okUploader g) df "gildan_5000" [v] info
    = (⟨2, [⟨"POST", "/store/products",
            some { name := designNameOf df ++ " - " ++ info,
                   thumbnail := f df,
                   sync_variants := [PayloadVariant.newVar
                     ⟨v.price, v.variant_id,
                      [⟨"embroidery_chest_left", f df,
                        some [⟨"auto_thread_color", true⟩],
                        some ⟨18, 24, 2, 2, 3, 4, true⟩⟩]⟩] }⟩,
           ⟨"GET", "/store/products/" ++ toString pid, none⟩]⟩,
       if isSuccessCode respFin.code? = true then
         match respFin.result? with
         | none => failRes "gildan_5000" "KeyError: result"
         | some fres =>
           { success := true, error? := none, product_id? := some pid,
             product_name? := none, product_type := "gildan_5000",
             variants_count? := none, total_variants_requested? := some 1,
             total_variants_created? :=
               some (fres.syncVariants?.getD []).length }
       else failRes "gildan_5000" "Errore recupero stato finale") := by
  have hcompat : PlacementConfig.validate_product_compatibility "gildan_5000"
      = true := by decide
  have hprep : Mod.prepare_product_urls (fun _ => false) (okUploader f)
      (okUploader g) df = .ok ⟨f df, none, none⟩ := rfl
  have hpay : Mod.create_variant_payloads "gildan_5000" ⟨f df, none, none⟩ [v]
      = .ok [PayloadVariant.newVar ⟨v.price, v.variant_id,
          [⟨"embroidery_chest_left", f df, some [⟨"auto_thread_color", true⟩],
            some ⟨18, 24, 2, 2, 3, 4, true⟩⟩]⟩] := rfl
  have htake : ([v] : List Variant).take 20 = [v] := rfl
  have hdrop : ([v] : List Variant).drop 20 = [] := rfl
  obtain ⟨pc, pr⟩ := respPost
  simp only at hc hres
  subst hres
  obtain ⟨rid, rsp, rsv⟩ := res
  simp only at hsp
  subst hsp
  obtain ⟨spid⟩ := sp
  simp only at hid
  subst hid
  simp only [Mod.build_single_product, hcompat, hprep, hpay, htake, hdrop,
    doRequest, hc, initCalls, List.isEmpty, not_true, Bool.not_eq_true]
  simp [hc]
  cases hfc : isSuccessCode respFin.code? <;> simp [hfc]
  cases respFin.result? <;> rfl

/-- Claim C3 (amended): a final verification `GET` that returns a
non-success code does fail the build — `build_single_product` returns a
failed result reporting the final-state retrieval error, with
`success = false`, even though creation succeeded (the trace shows the
successful `POST` followed by the final `GET`); the last known in-memory
state is not used. -/
theorem final_verification_failure_fails_build
    (respPost respFin : ApiResponse) (res : ApiResult) (sp : SyncProductObj)
    (pid : Nat) (v : Variant) (f g : String → String) (df info : String)
    (hc : isSuccessCode respPost.code? = true)
    (hres : respPost.result? = some res)
    (hsp : res.syncProduct? = some sp)
    (hid : sp.id? = some pid)
    (hfc : isSuccessCode respFin.code? = false) :
    ((Mod.build_single_product
        (fun n => if n = 0 then .ok respPost else .ok respFin)
        (fun _ => false) (okUploader f) (okUploader g) df "gildan_5000"
        [v] info).2
      = failRes "gildan_5000" "Errore recupero stato finale") ∧
    ((Mod.build_single_product
        (fun n => if n = 0 then .ok respPost else .ok respFin)
        (fun _ => false) (okUploader f) (okUploader g) df "gildan_5000"
        [v] info).1.trace.map (fun c => (c.method, c.path))
      = [("POST", "/store/products"),
         ("GET", "/store/products/" ++ toString pid)]) := by
  rw [mod_build_single_reduce respPost respFin res sp pid v f g df info
    hc hres hsp hid]
  rw [if_neg (by rw [hfc]; exact Bool.false_ne_true)]
  exact ⟨rfl, rfl⟩

/-- Witness for `final_verification_failure_fails_build`: creation
succeeds with id 7, the final read returns 404, and the build reports
failure. -/
theorem final_verification_failure_fails_build_witness :
    ((Mod.build_single_product
        (fun n => if n = 0
          then .ok ⟨some 200, some ⟨none, some ⟨some 7⟩, some []⟩⟩
          else .ok ⟨some 404, none⟩)
        (fun _ => false) (okUploader fun _ => "du") (okUploader fun _ => "up")
        "d.png" "gildan_5000" [⟨1000, "M", "Black", 25⟩] "T").2
      = failRes "gildan_5000" "Errore recupero stato finale") ∧
    ((Mod.build_single_product
        (fun n => if n = 0
          then .ok ⟨some 200, some ⟨none, some ⟨some 7⟩, some []⟩⟩
          else .ok ⟨some 404, none⟩)
        (fun _ => false) (okUploader fun _ => "du") (okUploader fun _ => "up")
        "d.png" "gildan_5000" [⟨1000, "M", "Black", 25⟩] "T").1.trace.map
          (fun c => (c.method, c.path))
      = [("POST", "/store/products"),
         ("GET", "/store/products/" ++ toString 7)]) :=
  final_verification_failure_fails_build
    ⟨some 200, some ⟨none, some ⟨some 7⟩, some []⟩⟩ ⟨some 404, none⟩
    ⟨none, some ⟨some 7⟩, some []⟩ ⟨some 7⟩ 7 ⟨1000, "M", "Black", 25⟩
    (fun _ => "du") (fun _ => "up") "d.png" "T"
    (by decide) rfl rfl rfl (by decide)

/-- Claim C3 counterexample: a build whose creation succeeded (id 7) but
whose final verification `GET` returns 404 is reported with
`success = false` — not `success = true` with counts degraded to the last
known in-memory state, as the claim states. -/
theorem verification_failure_not_degraded :
    ((Mod.build_single_product
        (fun n => if n = 0
          then .ok ⟨some 200, some ⟨none, some ⟨some 7⟩, some []⟩⟩
          else .ok ⟨some 404, none⟩)
        (fun _ => false) (okUploader fun _ => "du") (okUploader fun _ => "up")
        "d.png" "gildan_5000" [⟨1000, "M", "Black", 25⟩] "T").2.success
      = false) ∧
    ((Mod.build_single_product
        (fun n => if n = 0
          then .ok ⟨some 200, some ⟨none, some ⟨some 7⟩, some []⟩⟩
          else .ok ⟨some 404, none⟩)
        (fun _ => false) (okUploader fun _ => "du") (okUploader fun _ => "up")
        "d.png" "gildan_5000" [⟨1000, "M", "Black", 25⟩] "T").2.error?
      = some "Errore recupero stato finale") := by
  refine ⟨?_, ?_⟩ <;> decide

/-- Claim C4 (amended): on a creation response with a success code the
modular builder extracts the product id from
`result["sync_product"]["id"]` and carries it into a successful result,
and a non-success creation code fails the modular build; the clean
builder instead reads the id from `result["id"]` — when that key holds
`pid`, creation returns `pid` whatever `result.sync_product` contains,
and when it is absent the build fails even if `result.sync_product.id`
is present (see the counterexample). -/
theorem create_initial_id_extraction
    (respPost respFin : ApiResponse) (res : ApiResult) (sp : SyncProductObj)
    (fres : ApiResult) (pid : Nat) (v : Variant) (f g : String → String)
    (df info : String) :
    (isSuccessCode respPost.code? = true →
     respPost.result? = some res → res.syncProduct? = some sp →
     sp.id? = some pid →
     isSuccessCode respFin.code? = true → respFin.result? = some fres →
     ((Mod.build_single_product
         (fun n => if n = 0 then .ok respPost else .ok respFin)
         (fun _ => false) (okUploader f) (okUploader g) df "gildan_5000"
         [v] info).2.success = true ∧
      (Mod.build_single_product
         (fun n => if n = 0 then .ok respPost else .ok respFin)
         (fun _ => false) (okUploader f) (okUploader g) df "gildan_5000"
         [v] info).2.product_id? = some pid)) ∧
    (isSuccessCode respPost.code? = false →
     (Mod.build_single_product
        (fun n => if n = 0 then .ok respPost else .ok respFin)
        (fun _ => false) (okUploader f) (okUploader g) df "gildan_5000"
        [v] info).2
       = failRes "gildan_5000" "Errore creazione prodotto") ∧
    (isSuccessCode respPost.code? = true →
     respPost.result? = some res → res.id? = some pid →
     (Core.create_product (fun _ => .ok respPost) "P" "gildan_5000" [v]
        ⟨"du", none, none, none⟩ initCalls).2 = .ok pid) := by
  refine ⟨?_, ?_, ?_⟩
  · intro hc hres hsp hid hfc hfr
    rw [mod_build_single_reduce respPost respFin res sp pid v f g df info
      hc hres hsp hid]
    rw [if_pos hfc, hfr]
    exact ⟨rfl, rfl⟩
  · intro hc
    have hcompat : PlacementConfig.validate_product_compatibility "gildan_5000"
        = true := by decide
    have hprep : Mod.prepare_product_urls (fun _ => false) (okUploader f)
        (okUploader g) df = .ok ⟨f df, none, none⟩ := rfl
    have hpay : Mod.create_variant_payloads "gildan_5000" ⟨f df, none, none⟩ [v]
        = .ok [PayloadVariant.newVar ⟨v.price, v.variant_id,
            [⟨"embroidery_chest_left", f df, some [⟨"auto_thread_color", true⟩],
              some ⟨18, 24, 2, 2, 3, 4, true⟩⟩]⟩] := rfl
    have htake : ([v] : List Variant).take 20 = [v] := rfl
    simp only [Mod.build_single_product, hcompat, hprep, hpay, htake,
      doRequest, initCalls]
    simp [hc]
  · intro hc hres hid
    have hbv : Core.build_variants_payload "gildan_5000" [v]
        ⟨"du", none, none, none⟩
        = .ok [PayloadVariant.newVar ⟨v.price, v.variant_id,
            [⟨"embroidery_chest_left", "du", some [⟨"auto_thread_color", true⟩],
              some ⟨18, 24, 2, 2, 3, 4, true⟩⟩]⟩] := rfl
    have htake : ([v] : List Variant).take 8 = [v] := rfl
    have hdrop : ([v] : List Variant).drop 8 = [] := rfl
    obtain ⟨pc, pr⟩ := respPost
    simp only at hc hres
    subst hres
    obtain ⟨rid, rsp, rsv⟩ := res
    simp only at hid
    subst hid
    simp only [Core.create_product, htake, hdrop, hbv, doRequest, initCalls]
    simp [hc, sliceChunks, Core.create_product_batches]

/-- Witness for `create_initial_id_extraction`: a success response whose
`result.sync_product.id` is 7 drives the modular build to a successful
result with product id 7; a 400 response fails it; a success response
whose `result.id` is 7 makes the clean creation return 7 even though its
`result.sync_product.id` is 5. -/
theorem create_initial_id_extraction_witness :
    ((Mod.build_single_product
        (fun n => if n = 0
          then .ok ⟨some 200, some ⟨none, some ⟨some 7⟩, some []⟩⟩
          else .ok ⟨some 200, some ⟨none, none, some [⟨some 9⟩]⟩⟩)
        (fun _ => false) (okUploader fun _ => "du") (okUploader fun _ => "up")
        "d.png" "gildan_5000" [⟨1000, "M", "Black", 25⟩] "T").2.success
      = true ∧
     (Mod.build_single_product
        (fun n => if n = 0
          then .ok ⟨some 200, some ⟨none, some ⟨some 7⟩, some []⟩⟩
          else .ok ⟨some 200, some ⟨none, none, some [⟨some 9⟩]⟩⟩)
        (fun _ => false) (okUploader fun _ => "du") (okUploader fun _ => "up")
        "d.png" "gildan_5000" [⟨1000, "M", "Black", 25⟩] "T").2.product_id?
      = some 7) ∧
    ((Mod.build_single_product
        (fun n => if n = 0 then .ok ⟨some 400, none⟩
          else .ok ⟨some 200, some ⟨none, none, some []⟩⟩)
        (fun _ => false) (okUploader fun _ => "du") (okUploader fun _ => "up")
        "d.png" "gildan_5000" [⟨1000, "M", "Black", 25⟩] "T").2
      = failRes "gildan_5000" "Errore creazione prodotto") ∧
    ((Core.create_product
        (fun _ => .ok ⟨some 200, some ⟨some 7, some ⟨some 5⟩, some []⟩⟩)
        "P" "gildan_5000" [⟨1000, "M", "Black", 25⟩]
        ⟨"du", none, none, none⟩ initCalls).2 = .ok 7) :=
  have h1 := create_initial_id_extraction
    ⟨some 200, some ⟨none, some ⟨some 7⟩, some []⟩⟩
    ⟨some 200, some ⟨none, none, some [⟨some 9⟩]⟩⟩
    ⟨none, some ⟨some 7⟩, some []⟩ ⟨some 7⟩ ⟨none, none, some [⟨some 9⟩]⟩ 7
    ⟨1000, "M", "Black", 25⟩ (fun _ => "du") (fun _ => "up") "d.png" "T"
  have h2 := create_initial_id_extraction
    ⟨some 400, none⟩ ⟨some 200, some ⟨none, none, some []⟩⟩
    ⟨none, none, none⟩ ⟨none⟩ ⟨none, none, none⟩ 0
    ⟨1000, "M", "Black", 25⟩ (fun _ => "du") (fun _ => "up") "d.png" "T"
  have h3 := create_initial_id_extraction
    ⟨some 200, some ⟨some 7, some ⟨some 5⟩, some []⟩⟩
    ⟨some 200, none⟩ ⟨some 7, some ⟨some 5⟩, some []⟩ ⟨some 5⟩
    ⟨none, none, none⟩ 7
    ⟨1000, "M", "Black", 25⟩ (fun _ => "du") (fun _ => "up") "d.png" "T"
  ⟨h1.1 (by decide) rfl rfl rfl (by decide) rfl,
   h2.2.1 (by decide),
   h3.2.2 (by decide) rfl rfl⟩

/-- Claim C4 counterexample: a creation response with code 200 that
carries the product identifier at the documented location
`result.sync_product.id` (here 5) but has no `result.id` key does not
make the clean builder return that identifier: `_create_product` raises
`KeyError: id` and the whole build fails. -/
theorem core_create_ignores_sync_product_id :
    ((Core.create_product
        (fun _ => .ok ⟨some 200, some ⟨none, some ⟨some 5⟩, some []⟩⟩)
        "P" "gildan_5000" [⟨1000, "M", "Black", 25⟩]
        ⟨"du", none, none, none⟩ initCalls).2 = .error "KeyError: id") ∧
    ((Core.build
        (fun _ => .ok ⟨some 200, some ⟨none, some ⟨some 5⟩, some []⟩⟩)
        (fun _ => false) (okUploader fun _ => "du") (okUploader fun _ => "x")
        (okUploader fun _ => "y") (.ok [⟨1000, "M", "Black", 25⟩])
        [] "d.png" "gildan_5000").2.success = false) ∧
    ((Core.build
        (fun _ => .ok ⟨some 200, some ⟨none, some ⟨some 5⟩, some []⟩⟩)
        (fun _ => false) (okUploader fun _ => "du") (okUploader fun _ => "x")
        (okUploader fun _ => "y") (.ok [⟨1000, "M", "Black", 25⟩])
        [] "d.png" "gildan_5000").2.error? = some "KeyError: id") := by
  refine ⟨?_, ?_, ?_⟩ <;> decide

end Produzione
